import Mathlib

/-!
# Ferry: cluster registry reconciler and health monitor

A shallow embedding of

* `pkg/controller/cluster_information/cluster_information_controller.go`
* `pkg/ferry-controller/controller/health/health_controller.go`

The Go maps of the controller become functions `String → Option _`
(a missing key and a nil pointer are both `none`).  Every call that leaves
the process (client construction, secret lookup, status write, service cache
lifecycle, probes, logging, `syncFunc`) is recorded, in program order, in a
trace of effects; what such a call returns is an input of the handler
(`Outcomes`, `HubOutcome`), so a statement quantified over these inputs holds
for every behaviour of the outside world.  Pointers returned by constructors
are addresses handed out by a bump allocator (`nextPtr`).  Locks are not
modelled: each handler runs under the exclusive lock from start to end.
Addresses are natural numbers; clock readings and durations are integers,
in nanoseconds.
-/

namespace Ferry

/-- One byte of a Go byte slice. -/
abbrev Byte := Fin 256

/-! ## Library functions used by the sources -/

/-- Go compares strings bytewise; on UTF-8 text this is the lexicographic order
of the code points. -/
def strLe (a b : String) : Prop := a.toList ≤ b.toList

instance strLe.decidable : DecidableRel strLe :=
  fun a b => inferInstanceAs (Decidable (a.toList ≤ b.toList))

instance strLe.isTotal : IsTotal String strLe := ⟨fun a b => le_total a.toList b.toList⟩

instance strLe.isTrans : IsTrans String strLe :=
  ⟨fun a b c (h1 : a.toList ≤ b.toList) (h2 : b.toList ≤ c.toList) => le_trans h1 h2⟩

instance strLe.isAntisymm : IsAntisymm String strLe :=
  ⟨fun a b (h1 : a.toList ≤ b.toList) (h2 : b.toList ≤ a.toList) =>
    String.ext (le_antisymm h1 h2)⟩

/-- Go `sort.Strings`: ascending order. The result of sorting by a total
order does not depend on the algorithm, insertion sort is used here. -/
def sortStrings (xs : List String) : List String := List.insertionSort strLe xs

/-- The alphabet of Go `base64.URLEncoding`. -/
def encodeURL : List Char :=
  "ABCDEFGHIJKLMNOPQRSTUVWXYZabcdefghijklmnopqrstuvwxyz0123456789-_".toList

/-- The character for a six bit value. -/
def encodeChar (n : Nat) : Char := encodeURL.getD (n % 64) '='

/-- Go `base64.URLEncoding.EncodeToString` on the list of characters:
three bytes give four characters, a remainder is padded with `=`. -/
def encodeChars : List Byte → List Char
  | a :: b :: c :: rest =>
    let v := a.val * 65536 + b.val * 256 + c.val
    encodeChar (v / 262144) :: encodeChar (v / 4096) :: encodeChar (v / 64) :: encodeChar v ::
      encodeChars rest
  | [a, b] =>
    let v := a.val * 65536 + b.val * 256
    [encodeChar (v / 262144), encodeChar (v / 4096), encodeChar (v / 64), '=']
  | [a] =>
    let v := a.val * 65536
    [encodeChar (v / 262144), encodeChar (v / 4096), '=', '=']
  | [] => []

/-- Go `base64.URLEncoding.EncodeToString`. -/
def EncodeToString (src : List Byte) : String := String.mk (encodeChars src)

/-- Go `bytes.Equal`: a nil slice (`none`) and an empty slice are equal. -/
def bytesEqual (a b : Option (List Byte)) : Bool := decide (a.getD [] = b.getD [])

/-! ## Data model (`v1alpha1`) -/

/-- Type `v1alpha1.ClusterInformationSpecGatewayWay`. -/
structure ClusterInformationSpecGatewayWay where
  ClusterName : String
  Proxy : String
deriving DecidableEq, Repr

/-- Type `v1alpha1.ClusterInformationSpecGateway`. `Rest` stands for the fields this
package never reads; `reflect.DeepEqual` compares them. -/
structure ClusterInformationSpecGateway where
  Address : String
  Rest : List String
deriving DecidableEq, Repr

/-- Type `v1alpha1.ClusterInformationSpec`. `Kubeconfig` is a `[]byte`: `none` is the
nil slice, which `reflect.DeepEqual` tells apart from the empty one. `Rest`
stands for the fields this package never reads. -/
structure ClusterInformationSpec where
  Kubeconfig : Option (List Byte)
  Gateway : ClusterInformationSpecGateway
  Rest : List String
deriving DecidableEq, Repr

/-- Type `v1alpha1.ClusterInformationStatus`. -/
structure ClusterInformationStatus where
  ImportedFrom : List String
  ExportedTo : List String
  LastSynchronizationTimestamp : Int
  Phase : String
deriving DecidableEq, Repr

/-- Type `v1alpha1.ClusterInformation`. -/
structure ClusterInformation where
  Name : String
  Spec : ClusterInformationSpec
  Status : ClusterInformationStatus
deriving DecidableEq, Repr

/-- Go `error` values. The first five are built by `fmt.Errorf` in the
controller, `external` is an error returned by a call out of the process. -/
inductive Error where
  /-- Built by `fmt.Errorf("not found ClusterInformation %s", name)`. -/
  | notFoundClusterInformation (name : String)
  /-- Built by `fmt.Errorf("failed get cluster information %q", name)`. -/
  | failedGetClusterInformation (name : String)
  /-- Built by `fmt.Errorf("failed get address of cluster information %q", name)`. -/
  | failedGetAddress (name : String)
  /-- Built by `fmt.Errorf("secret %q is empty", name)`. -/
  | secretEmpty (name : String)
  /-- Built by `fmt.Errorf("secret %q not found identity key", name)`. -/
  | secretNoIdentity (name : String)
  | external (msg : String)
deriving DecidableEq, Repr

/-- Type `corev1.Secret`, its `Data map[string][]byte`; `none` is the nil map. -/
structure Secret where
  Data : Option (String → Option (List Byte))

/-- Calls that leave the controller, in the order they are made. -/
inductive Effect where
  | logInfo (msg : String)
  | logError (msg : String)
  /-- The call `client.NewClientsetFromKubeconfig(kubeconfig)`. -/
  | NewClientsetFromKubeconfig (kubeconfig : Option (List Byte))
  /-- The call `newTunnelPorts`, returning `ports`. -/
  | newTunnelPorts (ports : Nat)
  /-- The call `newClusterServiceCache` with `Clientset: clientset`, returning `svc`. -/
  | newClusterServiceCache (svc : Nat) (clientset : Option Nat)
  /-- The call `svc.Start(ctx)`. -/
  | Start (svc : Nat)
  /-- The call `svc.ResetClientset(clientset)`. -/
  | ResetClientset (svc : Nat) (clientset : Nat)
  /-- The call `svc.Close()`. -/
  | Close (svc : Nat)
  /-- The status write `ClusterInformations(namespace).UpdateStatus(ctx, ci, _)`. -/
  | UpdateStatus (ci : ClusterInformation)
  /-- The secret lookup `Secrets(namespace).Get(ctx, name, _)`. -/
  | SecretsGet (name : String)
  | syncFunc
deriving DecidableEq, Repr

/-- What the outside world answers during one handler invocation. Each
handler makes each of these calls at most once. -/
structure Outcomes where
  /-- error of `client.NewClientsetFromKubeconfig`, `none` on success -/
  newClientset : Option Error
  /-- error of `clusterService.Start` -/
  start : Option Error
  /-- error of the status write -/
  statusWrite : Option Error
  /-- result of the secret lookup -/
  secret : Except Error Secret
  /-- error of `ResetClientset` -/
  reset : Option Error
  /-- reading of `metav1.Now()` -/
  now : Int

/-! ## `ClusterInformationController` -/

/-- The five caches of `ClusterInformationController`, and the allocator. -/
structure ClusterInformationController where
  cacheClusterInformation : String → Option ClusterInformation
  cacheClientset : String → Option Nat
  cacheService : String → Option Nat
  cacheTunnelPorts : String → Option Nat
  cacheIdentity : String → Option String
  /-- next free address (not a field of the Go struct) -/
  nextPtr : Nat

/-- Constructor `NewClusterInformationController`: all maps empty. -/
def NewClusterInformationController : ClusterInformationController where
  cacheClusterInformation := fun _ => none
  cacheClientset := fun _ => none
  cacheService := fun _ => none
  cacheTunnelPorts := fun _ => none
  cacheIdentity := fun _ => none
  nextPtr := 0

namespace ClusterInformationController

/-- Method `updateStatus`: the error returned and the calls made. -/
def updateStatus (c : ClusterInformationController) (name : String)
    (importedFrom exportedTo : List String) (phase : String)
    (now : Int) (write : Option Error) : Option Error × List Effect :=
  match c.cacheClusterInformation name with
  | none => (some (Error.notFoundClusterInformation name), [])
  | some ci =>
    let importedFrom := sortStrings importedFrom
    let exportedTo := sortStrings exportedTo
    let ci : ClusterInformation :=
      { ci with Status :=
          { ImportedFrom := importedFrom
            ExportedTo := exportedTo
            LastSynchronizationTimestamp := now
            Phase := phase } }
    (write, [Effect.UpdateStatus ci])

/-- Method `Clientset`. -/
def Clientset (c : ClusterInformationController) (name : String) : Option Nat :=
  c.cacheClientset name

/-- Method `ServiceCache`. -/
def ServiceCache (c : ClusterInformationController) (name : String) : Option Nat :=
  c.cacheService name

/-- Method `GetIdentity`: a missing key reads as the empty string. -/
def GetIdentity (c : ClusterInformationController) (name : String) : String :=
  (c.cacheIdentity name).getD ""

/-- Method `TunnelPorts`. -/
def TunnelPorts (c : ClusterInformationController) (name : String) : Option Nat :=
  c.cacheTunnelPorts name

/-- Method `Get`. -/
def Get (c : ClusterInformationController) (name : String) : Option ClusterInformation :=
  c.cacheClusterInformation name

/-- Method `updateIdentityKey`: the controller after the call, the error returned and
the calls made. `get` is what the secret lookup answers. -/
def updateIdentityKey (c : ClusterInformationController) (name : String)
    (get : Except Error Secret) : ClusterInformationController × Option Error × List Effect :=
  match get with
  | Except.error err => (c, some err, [Effect.SecretsGet name])
  | Except.ok secret =>
    match secret.Data with
    | none => (c, some (Error.secretEmpty name), [Effect.SecretsGet name])
    | some data =>
      let identity := (data "identity").getD []
      if identity.length = 0 then
        (c, some (Error.secretNoIdentity name), [Effect.SecretsGet name])
      else
        ({ c with cacheIdentity :=
              Function.update c.cacheIdentity name (some (EncodeToString identity)) },
          none, [Effect.SecretsGet name])

/-- Handler `onAdd`, under the exclusive lock. -/
def onAdd (c : ClusterInformationController) (f : ClusterInformation) (o : Outcomes) :
    ClusterInformationController × List Effect :=
  let t := [Effect.logInfo "onAdd", Effect.NewClientsetFromKubeconfig f.Spec.Kubeconfig]
  -- clientset, err := client.NewClientsetFromKubeconfig(f.Spec.Kubeconfig)
  let clientset : Option Nat := if o.newClientset.isSome then none else some c.nextPtr
  let t := if o.newClientset.isSome then t ++ [Effect.logError "NewClientsetFromKubeconfig"] else t
  let c : ClusterInformationController :=
    match clientset with
    | none => c
    | some p =>
      { c with cacheClientset := Function.update c.cacheClientset f.Name (some p)
               nextPtr := p + 1 }
  let c := { c with
    cacheClusterInformation := Function.update c.cacheClusterInformation f.Name (some f) }
  -- newTunnelPorts
  let ports := c.nextPtr
  let c := { c with cacheTunnelPorts := Function.update c.cacheTunnelPorts f.Name (some ports)
                    nextPtr := ports + 1 }
  -- newClusterServiceCache
  let clusterService := c.nextPtr
  let c := { c with cacheService := Function.update c.cacheService f.Name (some clusterService)
                    nextPtr := clusterService + 1 }
  let t := t ++ [Effect.newTunnelPorts ports,
                 Effect.newClusterServiceCache clusterService clientset,
                 Effect.Start clusterService]
  let t := if o.start.isSome then t ++ [Effect.logError "failed start cluster service cache"] else t
  let r := c.updateStatus f.Name [] [] "Pending" o.now o.statusWrite
  let t := t ++ r.2
  let t := if r.1.isSome then t ++ [Effect.logError "UpdateStatus"] else t
  let r := c.updateIdentityKey f.Name o.secret
  let c := r.1
  let t := t ++ r.2.2
  let t := if r.2.1.isSome then t ++ [Effect.logError "UpdateIdentityKey"] else t
  (c, t ++ [Effect.syncFunc])

/-- Handler `onUpdate`. `none` is the nil pointer panic of
`c.cacheClusterInformation[f.Name].Spec` (the name is not registered) or of
`c.cacheService[f.Name].ResetClientset` (no service cache). -/
def onUpdate (c : ClusterInformationController) (_oldObj newObj : ClusterInformation)
    (o : Outcomes) : Option (ClusterInformationController × List Effect) :=
  let f := newObj
  let t := [Effect.logInfo "onUpdate"]
  let r := c.updateIdentityKey f.Name o.secret
  let c := r.1
  let t := t ++ r.2.2
  let t := if r.2.1.isSome then t ++ [Effect.logError "UpdateIdentityKey"] else t
  match c.cacheClusterInformation f.Name with
  | none => none
  | some cached =>
    if cached.Spec = f.Spec then
      some ({ c with
        cacheClusterInformation := Function.update c.cacheClusterInformation f.Name (some f) }, t)
    else
      let rebuilt : Option (ClusterInformationController × List Effect) :=
        if bytesEqual cached.Spec.Kubeconfig f.Spec.Kubeconfig then some (c, t)
        else
          let t := t ++ [Effect.NewClientsetFromKubeconfig f.Spec.Kubeconfig]
          if o.newClientset.isSome then
            some (c, t ++ [Effect.logError "NewClientsetFromKubeconfig"])
          else
            let clientset := c.nextPtr
            let c := { c with
              cacheClientset := Function.update c.cacheClientset f.Name (some clientset)
              nextPtr := clientset + 1 }
            match c.cacheService f.Name with
            | none => none
            | some svc =>
              let t := t ++ [Effect.ResetClientset svc clientset]
              some (c, if o.reset.isSome then t ++ [Effect.logError "Reset clientset"] else t)
      match rebuilt with
      | none => none
      | some (c, t) =>
        some ({ c with
          cacheClusterInformation := Function.update c.cacheClusterInformation f.Name (some f) },
          t ++ [Effect.syncFunc])

/-- Handler `onDelete`. -/
def onDelete (c : ClusterInformationController) (f : ClusterInformation) :
    ClusterInformationController × List Effect :=
  let t := [Effect.logInfo "onDelete"]
  let t := match c.cacheService f.Name with
    | some svc => t ++ [Effect.Close svc]
    | none => t
  ({ c with
      cacheClientset := Function.update c.cacheClientset f.Name none
      cacheClusterInformation := Function.update c.cacheClusterInformation f.Name none
      cacheTunnelPorts := Function.update c.cacheTunnelPorts f.Name none
      cacheService := Function.update c.cacheService f.Name none
      cacheIdentity := Function.update c.cacheIdentity f.Name none },
    t ++ [Effect.syncFunc])

/-- Method `proxy`: the pair `(string, error)` the Go function returns. -/
def proxy (c : ClusterInformationController) (proxy : ClusterInformationSpecGatewayWay) :
    String × Option Error :=
  if proxy.Proxy ≠ "" then (proxy.Proxy, none)
  else
    match c.Get proxy.ClusterName with
    | none => ("", some (Error.failedGetClusterInformation proxy.ClusterName))
    | some ci =>
      if ci.Spec.Gateway.Address = "" then
        ("", some (Error.failedGetAddress proxy.ClusterName))
      else
        let address := ci.Spec.Gateway.Address
        ("ssh://" ++ address ++ "?identity_data=" ++ c.GetIdentity proxy.ClusterName, none)

/-- The loop of `Proxies`; `out` is the slice built so far. -/
def ProxiesLoop (c : ClusterInformationController) :
    List ClusterInformationSpecGatewayWay → List String → Option (List String) × Option Error
  | [], out => (some out, none)
  | p :: rest, out =>
    match (c.proxy p).2 with
    | some err => (none, some err)
    | none => ProxiesLoop c rest (out ++ [(c.proxy p).1])

/-- Method `Proxies`: the pair `([]string, error)`; `none` is the nil slice. -/
def Proxies (c : ClusterInformationController) (proxies : List ClusterInformationSpecGatewayWay) :
    Option (List String) × Option Error :=
  ProxiesLoop c proxies []

end ClusterInformationController

/-- An event of the watch stream, with what the outside world answers while
it is handled. -/
inductive Event where
  | Add (obj : ClusterInformation) (o : Outcomes)
  | Update (oldObj newObj : ClusterInformation) (o : Outcomes)
  | Delete (obj : ClusterInformation)

/-- The object an event is about. -/
def Event.obj : Event → ClusterInformation
  | Event.Add f _ => f
  | Event.Update _ f _ => f
  | Event.Delete f => f

/-- Whether the event is a Delete. -/
def Event.isDelete : Event → Bool
  | Event.Delete _ => true
  | _ => false

/-- Whether the event is an Update. -/
def Event.isUpdate : Event → Bool
  | Event.Update _ _ _ => true
  | _ => false

/-- The informer calling the handler registered for the event. -/
def dispatch (c : ClusterInformationController) :
    Event → Option (ClusterInformationController × List Effect)
  | Event.Add f o => some (c.onAdd f o)
  | Event.Update old f o => c.onUpdate old f o
  | Event.Delete f => some (c.onDelete f)

/-- The events handled one after the other; `none` when a handler panics. -/
def run (c : ClusterInformationController) : List Event → Option ClusterInformationController
  | [] => some c
  | e :: rest =>
    match dispatch c e with
    | none => none
    | some (c1, _) => run c1 rest

/-- The informer delivers the events of one key in order: an Update only for
an object it has delivered before and not deleted since. `registered` tells
whether the key is known before the first event of the list. -/
def informerOrder : Bool → List Event → Bool
  | _, [] => true
  | registered, e :: rest => (!e.isUpdate || registered) && informerOrder (!e.isDelete) rest

/-- The registries the controller can be in: those the handlers produce from
the empty one. -/
def Reachable (c : ClusterInformationController) : Prop :=
  ∃ evs : List Event, run NewClusterInformationController evs = some c

/-- Go `(T, error)` read as a result: the value counts only without an error. -/
def toExcept {α : Type} (r : α × Option Error) : Except Error α :=
  match r.2 with
  | some err => Except.error err
  | none => Except.ok r.1

/-- The resolver as the specification words it: an override is returned
unchanged; else the referenced cluster must be registered ("cluster not
found") and have a gateway address ("no gateway address"), and the result is
`ssh://<address>?identity_data=<identityToken>`. -/
def resolveGatewayWay (get : String → Option ClusterInformation) (identity : String → String)
    (way : ClusterInformationSpecGatewayWay) : Except Error String :=
  if way.Proxy ≠ "" then Except.ok way.Proxy
  else
    match get way.ClusterName with
    | none => Except.error (Error.failedGetClusterInformation way.ClusterName)
    | some descriptor =>
      if descriptor.Spec.Gateway.Address = "" then
        Except.error (Error.failedGetAddress way.ClusterName)
      else
        Except.ok ("ssh://" ++ descriptor.Spec.Gateway.Address ++ "?identity_data="
          ++ identity way.ClusterName)

/-- The `ResetClientset` calls of a trace, as (service cache, client) pairs. -/
def resetCalls : List Effect → List (Nat × Nat)
  | [] => []
  | Effect.ResetClientset svc p :: t => (svc, p) :: resetCalls t
  | _ :: t => resetCalls t

/-- The kubeconfigs of the `NewClientsetFromKubeconfig` calls of a trace. -/
def buildCalls : List Effect → List (Option (List Byte))
  | [] => []
  | Effect.NewClientsetFromKubeconfig k :: t => k :: buildCalls t
  | _ :: t => buildCalls t

/-- The objects of the status writes of a trace. -/
def statusWrites : List Effect → List ClusterInformation
  | [] => []
  | Effect.UpdateStatus ci :: t => ci :: statusWrites t
  | _ :: t => statusWrites t

/-- How often a trace calls `syncFunc`. -/
def syncCalls (t : List Effect) : Nat := t.count Effect.syncFunc

/-- A trace without the secret lookup and the log line of its failure. -/
def withoutIdentity (t : List Effect) : List Effect :=
  t.filter fun e =>
    !(decide (e = Effect.logError "UpdateIdentityKey") ||
      match e with
      | Effect.SecretsGet _ => true
      | _ => false)

/-- What every registry the handlers produce satisfies: an entry is stored
under the name of its descriptor, a registered cluster has a service cache,
and a stored client was allocated before. -/
structure WF (c : ClusterInformationController) : Prop where
  keyed : ∀ n ci, c.cacheClusterInformation n = some ci → ci.Name = n
  service : ∀ n, (c.cacheClusterInformation n).isSome → (c.cacheService n).isSome
  fresh : ∀ n p, c.cacheClientset n = some p → p < c.nextPtr

/-- The trace of `onUpdate` up to the comparison of the specs. -/
def updateStart (c : ClusterInformationController) (f : ClusterInformation) (o : Outcomes) :
    List Effect :=
  [Effect.logInfo "onUpdate", Effect.SecretsGet f.Name] ++
    (if (c.updateIdentityKey f.Name o.secret).2.1.isSome then
      [Effect.logError "UpdateIdentityKey"] else [])

/-! ## `HealthController` -/

namespace health

/-- Type `metav1.ConditionStatus`. -/
inductive ConditionStatus where
  | ConditionTrue
  | ConditionFalse
  | ConditionUnknown
deriving DecidableEq, Repr

/-- The condition types of `v1alpha2`; the controller writes this one only. -/
inductive ConditionType where
  | TunnelHealthCondition
deriving DecidableEq, Repr

/-- Type `metav1.Condition`, the fields the controller sets; a field it leaves
out has its zero value. -/
structure Condition where
  Type_ : ConditionType
  Status : ConditionStatus
  Reason : String
  Message : String
deriving DecidableEq, Repr

/-- Type `v1alpha2.Hub`. -/
structure Hub where
  Name : String
deriving DecidableEq, Repr

/-- Calls that leave the health controller, in the order they are made. -/
inductive HealthEffect where
  /-- The call `clusterCache.ListHubs()`. -/
  | ListHubs
  /-- The call `clusterCache.GetTunnelAddressInControlPlane(hubName)`. -/
  | GetTunnelAddressInControlPlane (hubName : String)
  /-- The probe `healthclient.NewClient(url).Get(ctx)`. -/
  | Get (url : String)
  /-- The call `clusterCache.UpdateHubConditions(name, conditions)`. -/
  | UpdateHubConditions (name : String) (conditions : List Condition)
  | logError (msg : String) (hub : String)
deriving DecidableEq, Repr

/-- What the outside world answers for one hub of a round. -/
structure HubOutcome where
  /-- result of `GetTunnelAddressInControlPlane` -/
  host : String
  /-- text of the error of the probe, `none` when it succeeds -/
  probe : Option String
  /-- text of the error of `UpdateHubConditions` -/
  write : Option String

/-- The state of `HealthController` that `Sync` reads and writes. Times count
nanoseconds from the zero `time.Time`. -/
structure HealthController where
  latestUpdate : Int

/-- Constructor `NewHealthController`: `latestUpdate` is the zero time. -/
def NewHealthController : HealthController where
  latestUpdate := 0

/-- Go `time.Second`. -/
def Second : Int := 1000000000

/-- Go `time.Since(t)` read at `now`: the difference, saturated to the range of
`time.Duration` (a signed 64 bit count). -/
def Since (now t : Int) : Int :=
  if now - t > 9223372036854775807 then 9223372036854775807
  else if now - t < -9223372036854775808 then -9223372036854775808
  else now - t

/-- The body of the loop of `check` for one hub. -/
def checkHub (hub : Hub) (o : HubOutcome) : List HealthEffect :=
  let t := [HealthEffect.GetTunnelAddressInControlPlane hub.Name,
            HealthEffect.Get ("http://" ++ o.host)]
  let t :=
    match o.probe with
    | some err =>
      t ++ [HealthEffect.logError "health" hub.Name,
            HealthEffect.UpdateHubConditions hub.Name
              [{ Type_ := ConditionType.TunnelHealthCondition
                 Status := ConditionStatus.ConditionTrue
                 Reason := "Unhealth"
                 Message := err }]]
    | none =>
      t ++ [HealthEffect.UpdateHubConditions hub.Name
              [{ Type_ := ConditionType.TunnelHealthCondition
                 Status := ConditionStatus.ConditionTrue
                 Reason := "Health"
                 Message := "" }]]
  if o.write.isSome then t ++ [HealthEffect.logError "Failed update hub status" hub.Name] else t

/-- Method `check`; `o i` is what the outside world answers for the hub at
position `i`. It returns nothing to its caller. -/
def check : List Hub → (Nat → HubOutcome) → List HealthEffect
  | [], _ => []
  | hub :: rest, o => checkHub hub (o 0) ++ check rest (fun i => o (i + 1))

/-- Method `Sync`. `now` is the clock read by `time.Since`, `hubs` what
`ListHubs` answers, `done` the clock read by the final `time.Now()`. -/
def Sync (m : HealthController) (now : Int) (hubs : List Hub) (o : Nat → HubOutcome)
    (done : Int) : HealthController × List HealthEffect :=
  if Since now m.latestUpdate ≤ Second then (m, [])
  else ({ m with latestUpdate := done }, HealthEffect.ListHubs :: check hubs o)

/-- What is proved of the condition written after a probe: its type, and
reason and message by the outcome of the probe (the status after a failed
probe is left open). -/
def conditionMatches (probe : Option String) (cond : Condition) : Prop :=
  cond.Type_ = ConditionType.TunnelHealthCondition ∧
  match probe with
  | some err => cond.Reason = "Unhealth" ∧ cond.Message = err
  | none =>
    cond.Reason = "Health" ∧ cond.Message = "" ∧ cond.Status = ConditionStatus.ConditionTrue

/-- The probes of a trace, by url. -/
def probes : List HealthEffect → List String
  | [] => []
  | HealthEffect.Get url :: t => url :: probes t
  | _ :: t => probes t

/-- The hubs whose tunnel address a trace resolves. -/
def resolved : List HealthEffect → List String
  | [] => []
  | HealthEffect.GetTunnelAddressInControlPlane n :: t => n :: resolved t
  | _ :: t => resolved t

/-- The condition writes of a trace. -/
def conditionWrites : List HealthEffect → List (String × List Condition)
  | [] => []
  | HealthEffect.UpdateHubConditions n cs :: t => (n, cs) :: conditionWrites t
  | _ :: t => conditionWrites t

/-- How many probe rounds a trace starts: each starts by listing the hubs. -/
def rounds (t : List HealthEffect) : Nat := t.count HealthEffect.ListHubs

end health

/-! ## Concrete inputs -/

/-- No call fails, the secret holds the identity bytes `hi`. -/
def okOutcomes : Outcomes where
  newClientset := none
  start := none
  statusWrite := none
  secret := Except.ok { Data := some fun k => if k = "identity" then some [104, 105] else none }
  reset := none
  now := 0

/-- Every call fails. -/
def failOutcomes : Outcomes where
  newClientset := some (Error.external "bad kubeconfig")
  start := some (Error.external "start")
  statusWrite := some (Error.external "conflict")
  secret := Except.error (Error.external "not found")
  reset := some (Error.external "reset")
  now := 0

/-- No call fails, the secret holds the identity bytes `abc`. -/
def rotatedOutcomes : Outcomes :=
  { okOutcomes with
    secret := Except.ok ⟨some fun k => if k = "identity" then some [97, 98, 99] else none⟩ }

/-- A descriptor of cluster `x`. -/
def clusterX : ClusterInformation where
  Name := "x"
  Spec := { Kubeconfig := some [1], Gateway := { Address := "10.0.0.1:443", Rest := [] }, Rest := [] }
  Status := { ImportedFrom := [], ExportedTo := [], LastSynchronizationTimestamp := 0, Phase := "" }

/-- The descriptor of cluster `x` with rotated credentials. -/
def clusterX2 : ClusterInformation :=
  { clusterX with Spec := { clusterX.Spec with Kubeconfig := some [2] } }

/-- The descriptor of cluster `x` with another gateway address. -/
def clusterX3 : ClusterInformation :=
  { clusterX with Spec := { clusterX.Spec with
      Gateway := { Address := "10.0.0.2:443", Rest := [] } } }

/-- The registry after `x` was added. -/
def registryX : ClusterInformationController :=
  (NewClusterInformationController.onAdd clusterX okOutcomes).1

/-- Two hubs. -/
def hubs12 : List health.Hub := [{ Name := "h1" }, { Name := "h2" }]

/-- The probe of the first hub fails and so does the write of its condition;
the second hub is fine. -/
def outcomes12 : Nat → health.HubOutcome := fun i =>
  if i = 0 then { host := "10.0.0.1:8080", probe := some "connection refused", write := some "conflict" }
  else { host := "10.0.0.2:8080", probe := none, write := none }

/-- A registry that knows cluster `b` with identity token `abc`. -/
def registryB : ClusterInformationController where
  cacheClusterInformation := fun n =>
    if n = "b" then
      some { Name := "b"
             Spec := { Kubeconfig := none
                       Gateway := { Address := "10.0.0.1:443", Rest := [] }, Rest := [] }
             Status := { ImportedFrom := [], ExportedTo := []
                         LastSynchronizationTimestamp := 0, Phase := "" } }
    else none
  cacheClientset := fun _ => none
  cacheService := fun _ => none
  cacheTunnelPorts := fun _ => none
  cacheIdentity := fun n => if n = "b" then some "abc" else none
  nextPtr := 0

/-! ## Lemmas on the handlers -/

open ClusterInformationController

theorem updateIdentityKey_frame (c : ClusterInformationController) (n : String)
    (g : Except Error Secret) :
    (c.updateIdentityKey n g).1.cacheClusterInformation = c.cacheClusterInformation ∧
    (c.updateIdentityKey n g).1.cacheClientset = c.cacheClientset ∧
    (c.updateIdentityKey n g).1.cacheService = c.cacheService ∧
    (c.updateIdentityKey n g).1.cacheTunnelPorts = c.cacheTunnelPorts ∧
    (c.updateIdentityKey n g).1.nextPtr = c.nextPtr ∧
    (∀ m, m ≠ n → (c.updateIdentityKey n g).1.cacheIdentity m = c.cacheIdentity m) ∧
    (c.updateIdentityKey n g).2.2 = [Effect.SecretsGet n] := by
  unfold updateIdentityKey
  rcases g with err | secret
  · simp
  · rcases secret with ⟨_ | data⟩
    · simp
    · by_cases h : ((data "identity").getD []).length = 0
      · simp [h]
      · simp [h]
        intro m hm
        simp [Function.update, hm]

theorem onAdd_cacheClusterInformation (c : ClusterInformationController) (f : ClusterInformation)
    (o : Outcomes) :
    (c.onAdd f o).1.cacheClusterInformation =
      Function.update c.cacheClusterInformation f.Name (some f) := by
  simp only [onAdd]
  rw [(updateIdentityKey_frame _ _ _).1]
  cases o.newClientset <;> simp

theorem onAdd_cacheService (c : ClusterInformationController) (f : ClusterInformation)
    (o : Outcomes) :
    ∃ p, (c.onAdd f o).1.cacheService = Function.update c.cacheService f.Name (some p) := by
  simp only [onAdd]
  rw [(updateIdentityKey_frame _ _ _).2.2.1]
  cases o.newClientset <;> exact ⟨_, rfl⟩

theorem onAdd_cacheClientset (c : ClusterInformationController) (f : ClusterInformation)
    (o : Outcomes) :
    c.nextPtr < (c.onAdd f o).1.nextPtr ∧
    ((c.onAdd f o).1.cacheClientset = c.cacheClientset ∨
     (c.onAdd f o).1.cacheClientset = Function.update c.cacheClientset f.Name (some c.nextPtr)) := by
  simp only [onAdd]
  rw [(updateIdentityKey_frame _ _ _).2.1, (updateIdentityKey_frame _ _ _).2.2.2.2.1]
  cases o.newClientset <;> simp <;> omega

theorem onUpdate_unregistered (c : ClusterInformationController) (old f : ClusterInformation)
    (o : Outcomes) (h : c.cacheClusterInformation f.Name = none) :
    c.onUpdate old f o = none := by
  simp only [onUpdate]
  rw [(updateIdentityKey_frame _ _ _).1, h]

theorem onUpdate_sameSpec (c : ClusterInformationController) (old f cached : ClusterInformation)
    (o : Outcomes) (h : c.cacheClusterInformation f.Name = some cached)
    (hs : cached.Spec = f.Spec) :
    c.onUpdate old f o =
      some ({ (c.updateIdentityKey f.Name o.secret).1 with
                cacheClusterInformation :=
                  Function.update c.cacheClusterInformation f.Name (some f) },
            updateStart c f o) := by
  simp only [onUpdate, updateStart]
  rw [(updateIdentityKey_frame _ _ _).1, h]
  simp only [hs, if_true]
  rw [(updateIdentityKey_frame _ _ _).2.2.2.2.2.2]
  cases (c.updateIdentityKey f.Name o.secret).2.1 <;>
    simp [(updateIdentityKey_frame c f.Name o.secret).1]

theorem onUpdate_sameCredentials (c : ClusterInformationController)
    (old f cached : ClusterInformation)
    (o : Outcomes) (h : c.cacheClusterInformation f.Name = some cached)
    (hs : cached.Spec ≠ f.Spec) (hb : bytesEqual cached.Spec.Kubeconfig f.Spec.Kubeconfig = true) :
    c.onUpdate old f o =
      some ({ (c.updateIdentityKey f.Name o.secret).1 with
                cacheClusterInformation :=
                  Function.update c.cacheClusterInformation f.Name (some f) },
            updateStart c f o ++ [Effect.syncFunc]) := by
  simp only [onUpdate, updateStart]
  rw [(updateIdentityKey_frame _ _ _).1, h]
  simp only [hs, if_false, hb, if_true]
  rw [(updateIdentityKey_frame _ _ _).2.2.2.2.2.2]
  cases (c.updateIdentityKey f.Name o.secret).2.1 <;>
    simp [(updateIdentityKey_frame c f.Name o.secret).1]

theorem onUpdate_buildFails (c : ClusterInformationController)
    (old f cached : ClusterInformation)
    (o : Outcomes) (h : c.cacheClusterInformation f.Name = some cached)
    (hb : bytesEqual cached.Spec.Kubeconfig f.Spec.Kubeconfig = false)
    (hn : o.newClientset.isSome = true) :
    c.onUpdate old f o =
      some ({ (c.updateIdentityKey f.Name o.secret).1 with
                cacheClusterInformation :=
                  Function.update c.cacheClusterInformation f.Name (some f) },
            updateStart c f o ++
              [Effect.NewClientsetFromKubeconfig f.Spec.Kubeconfig,
               Effect.logError "NewClientsetFromKubeconfig", Effect.syncFunc]) := by
  have hs : cached.Spec ≠ f.Spec := by
    intro hs
    rw [hs] at hb
    simp [bytesEqual] at hb
  simp only [onUpdate, updateStart]
  rw [(updateIdentityKey_frame _ _ _).1, h]
  simp only [hs, if_false, hb, hn, if_true]
  rw [(updateIdentityKey_frame _ _ _).2.2.2.2.2.2]
  cases (c.updateIdentityKey f.Name o.secret).2.1 <;>
    simp [(updateIdentityKey_frame c f.Name o.secret).1]

theorem onUpdate_rebuilds (c : ClusterInformationController)
    (old f cached : ClusterInformation) (svc : Nat)
    (o : Outcomes) (h : c.cacheClusterInformation f.Name = some cached)
    (hb : bytesEqual cached.Spec.Kubeconfig f.Spec.Kubeconfig = false)
    (hn : o.newClientset = none) (hsvc : c.cacheService f.Name = some svc) :
    c.onUpdate old f o =
      some ({ (c.updateIdentityKey f.Name o.secret).1 with
                cacheClusterInformation :=
                  Function.update c.cacheClusterInformation f.Name (some f)
                cacheClientset := Function.update c.cacheClientset f.Name (some c.nextPtr)
                nextPtr := c.nextPtr + 1 },
            updateStart c f o ++
              [Effect.NewClientsetFromKubeconfig f.Spec.Kubeconfig,
               Effect.ResetClientset svc c.nextPtr] ++
              (if o.reset.isSome then [Effect.logError "Reset clientset"] else []) ++
              [Effect.syncFunc]) := by
  have hs : cached.Spec ≠ f.Spec := by
    intro hs
    rw [hs] at hb
    simp [bytesEqual] at hb
  simp only [onUpdate, updateStart]
  rw [(updateIdentityKey_frame _ _ _).1, h]
  simp only [hs, if_false, hb, hn]
  rw [(updateIdentityKey_frame _ _ _).2.2.2.2.2.2, (updateIdentityKey_frame _ _ _).2.1,
    (updateIdentityKey_frame _ _ _).2.2.1, (updateIdentityKey_frame _ _ _).2.2.2.2.1]
  simp only [hsvc]
  cases (c.updateIdentityKey f.Name o.secret).2.1 <;> cases o.reset <;> simp

theorem onUpdate_noCache (c : ClusterInformationController)
    (old f cached : ClusterInformation)
    (o : Outcomes) (h : c.cacheClusterInformation f.Name = some cached)
    (hb : bytesEqual cached.Spec.Kubeconfig f.Spec.Kubeconfig = false)
    (hn : o.newClientset = none) (hsvc : c.cacheService f.Name = none) :
    c.onUpdate old f o = none := by
  have hs : cached.Spec ≠ f.Spec := by
    intro hs
    rw [hs] at hb
    simp [bytesEqual] at hb
  simp only [onUpdate]
  rw [(updateIdentityKey_frame _ _ _).1, h]
  simp only [hs, if_false, hb, hn]
  rw [(updateIdentityKey_frame _ _ _).2.2.1]
  simp [hsvc]

theorem onUpdate_result (c : ClusterInformationController) (old f cached : ClusterInformation)
    (o : Outcomes) (hsvc : (c.cacheService f.Name).isSome)
    (h : c.cacheClusterInformation f.Name = some cached) :
    ∃ c1 t, c.onUpdate old f o = some (c1, t) ∧
      c1.cacheClusterInformation = Function.update c.cacheClusterInformation f.Name (some f) ∧
      c1.cacheService = c.cacheService ∧
      c1.cacheTunnelPorts = c.cacheTunnelPorts ∧
      c1.cacheIdentity = (c.updateIdentityKey f.Name o.secret).1.cacheIdentity ∧
      ((c1.cacheClientset = c.cacheClientset ∧ c1.nextPtr = c.nextPtr) ∨
       (c1.cacheClientset = Function.update c.cacheClientset f.Name (some c.nextPtr) ∧
        c1.nextPtr = c.nextPtr + 1)) := by
  have fr := updateIdentityKey_frame c f.Name o.secret
  by_cases hs : cached.Spec = f.Spec
  · exact ⟨_, _, onUpdate_sameSpec c old f cached o h hs, rfl, fr.2.2.1, fr.2.2.2.1, rfl,
      Or.inl ⟨fr.2.1, fr.2.2.2.2.1⟩⟩
  · cases hb : bytesEqual cached.Spec.Kubeconfig f.Spec.Kubeconfig
    · cases hn : o.newClientset
      · obtain ⟨svc, hsvc⟩ := Option.isSome_iff_exists.mp hsvc
        exact ⟨_, _, onUpdate_rebuilds c old f cached svc o h hb hn hsvc, rfl, fr.2.2.1,
          fr.2.2.2.1, rfl, Or.inr ⟨rfl, rfl⟩⟩
      · exact ⟨_, _, onUpdate_buildFails c old f cached o h hb (by simp [hn]), rfl, fr.2.2.1,
          fr.2.2.2.1, rfl, Or.inl ⟨fr.2.1, fr.2.2.2.2.1⟩⟩
    · exact ⟨_, _, onUpdate_sameCredentials c old f cached o h hs hb, rfl, fr.2.2.1,
        fr.2.2.2.1, rfl, Or.inl ⟨fr.2.1, fr.2.2.2.2.1⟩⟩

theorem wf_new : WF NewClusterInformationController := by
  constructor <;> simp [NewClusterInformationController]

theorem wf_onAdd (c : ClusterInformationController) (f : ClusterInformation) (o : Outcomes)
    (h : WF c) : WF (c.onAdd f o).1 := by
  obtain ⟨p, hp⟩ := onAdd_cacheService c f o
  have hci := onAdd_cacheClusterInformation c f o
  obtain ⟨hlt, hcl⟩ := onAdd_cacheClientset c f o
  constructor
  · intro n ci hn
    rw [hci] at hn
    by_cases e : n = f.Name
    · subst e
      simp at hn
      rw [← hn]
    · rw [Function.update_noteq e] at hn
      exact h.keyed n ci hn
  · intro n hn
    rw [hci] at hn
    rw [hp]
    by_cases e : n = f.Name
    · subst e
      simp
    · rw [Function.update_noteq e] at hn ⊢
      exact h.service n hn
  · intro n q hn
    rcases hcl with hcl | hcl
    · rw [hcl] at hn
      exact lt_trans (h.fresh n q hn) hlt
    · rw [hcl] at hn
      by_cases e : n = f.Name
      · subst e
        simp at hn
        omega
      · rw [Function.update_noteq e] at hn
        exact lt_trans (h.fresh n q hn) hlt

theorem wf_onDelete (c : ClusterInformationController) (f : ClusterInformation)
    (h : WF c) : WF (c.onDelete f).1 := by
  constructor
  · intro n ci hn
    simp only [onDelete] at hn
    by_cases e : n = f.Name
    · subst e
      simp at hn
    · rw [Function.update_noteq e] at hn
      exact h.keyed n ci hn
  · intro n hn
    simp only [onDelete] at hn ⊢
    by_cases e : n = f.Name
    · subst e
      simp at hn
    · rw [Function.update_noteq e] at hn ⊢
      exact h.service n hn
  · intro n q hn
    simp only [onDelete] at hn ⊢
    by_cases e : n = f.Name
    · subst e
      simp at hn
    · rw [Function.update_noteq e] at hn
      exact h.fresh n q hn

theorem wf_onUpdate (c c1 : ClusterInformationController) (old f : ClusterInformation)
    (o : Outcomes) (t : List Effect) (h : WF c) (hu : c.onUpdate old f o = some (c1, t)) :
    WF c1 := by
  cases hreg : c.cacheClusterInformation f.Name with
  | none => rw [onUpdate_unregistered c old f o hreg] at hu; cases hu
  | some cached =>
    obtain ⟨c2, t2, h2, hci, hsv, -, -, hcl⟩ :=
      onUpdate_result c old f cached o (h.service _ (by simp [hreg])) hreg
    rw [h2] at hu
    cases hu
    constructor
    · intro n ci hn
      rw [hci] at hn
      by_cases e : n = f.Name
      · subst e
        simp at hn
        rw [← hn]
      · rw [Function.update_noteq e] at hn
        exact h.keyed n ci hn
    · intro n hn
      rw [hci] at hn
      rw [hsv]
      by_cases e : n = f.Name
      · subst e
        exact h.service _ (by simp [hreg])
      · rw [Function.update_noteq e] at hn
        exact h.service n hn
    · intro n q hn
      rcases hcl with ⟨hcl, hp⟩ | ⟨hcl, hp⟩
      · rw [hcl] at hn
        rw [hp]
        exact h.fresh n q hn
      · rw [hcl] at hn
        rw [hp]
        by_cases e : n = f.Name
        · subst e
          simp at hn
          omega
        · rw [Function.update_noteq e] at hn
          exact Nat.lt_succ_of_lt (h.fresh n q hn)

theorem wf_dispatch (c c1 : ClusterInformationController) (e : Event) (t : List Effect)
    (h : WF c) (hd : dispatch c e = some (c1, t)) : WF c1 := by
  cases e with
  | Add f o =>
    simp only [dispatch, Option.some.injEq] at hd
    have hw := wf_onAdd c f o h
    rw [hd] at hw
    exact hw
  | Update old f o => exact wf_onUpdate c c1 old f o t h hd
  | Delete f =>
    simp only [dispatch, Option.some.injEq] at hd
    have hw := wf_onDelete c f h
    rw [hd] at hw
    exact hw

theorem wf_run (evs : List Event) :
    ∀ c c1 : ClusterInformationController, WF c → run c evs = some c1 → WF c1 := by
  induction evs with
  | nil =>
    intro c c1 h hr
    simp only [run, Option.some.injEq] at hr
    rw [← hr]
    exact h
  | cons e rest ih =>
    intro c c1 h hr
    simp only [run] at hr
    cases hd : dispatch c e with
    | none => simp [hd] at hr
    | some r =>
      obtain ⟨c2, t⟩ := r
      rw [hd] at hr
      exact ih c2 c1 (wf_dispatch c c2 e t h hd) hr

theorem reachable_wf (c : ClusterInformationController) (h : Reachable c) : WF c := by
  obtain ⟨evs, hr⟩ := h
  exact wf_run evs _ c wf_new hr

theorem run_presence (name : String) (evs : List Event) :
    ∀ (c : ClusterInformationController) (reg : Bool), WF c →
      (c.cacheClusterInformation name).isSome = reg →
      (∀ ev ∈ evs, ev.obj.Name = name) → informerOrder reg evs = true →
      ∃ c1, run c evs = some c1 ∧ WF c1 ∧
        (c1.cacheClusterInformation name).isSome = evs.foldl (fun _ e => !e.isDelete) reg := by
  induction evs with
  | nil =>
    intro c reg hw hreg _ _
    exact ⟨c, rfl, hw, hreg⟩
  | cons e rest ih =>
    intro c reg hw hreg hname hord
    have hn : e.obj.Name = name := hname e (List.mem_cons_self _ _)
    have hrest : ∀ ev ∈ rest, ev.obj.Name = name := fun ev hev =>
      hname ev (List.mem_cons_of_mem _ hev)
    simp only [informerOrder, Bool.and_eq_true] at hord
    obtain ⟨hup, hord⟩ := hord
    simp only [List.foldl_cons]
    cases e with
    | Add f o =>
      simp only [Event.obj] at hn
      have hreg2 : ((c.onAdd f o).1.cacheClusterInformation name).isSome
          = !(Event.Add f o).isDelete := by
        rw [onAdd_cacheClusterInformation, ← hn]
        simp [Event.isDelete]
      obtain ⟨c1, hr, hw1, h1⟩ := ih (c.onAdd f o).1 _ (wf_onAdd c f o hw) hreg2 hrest hord
      exact ⟨c1, by simpa [run, dispatch] using hr, hw1, h1⟩
    | Update old f o =>
      simp only [Event.obj] at hn
      simp only [Event.isUpdate, Bool.not_true, Bool.false_or] at hup
      rw [hup, ← hn] at hreg
      obtain ⟨cached, hc⟩ := Option.isSome_iff_exists.mp hreg
      obtain ⟨c2, t2, h2, hci, -⟩ :=
        onUpdate_result c old f cached o (hw.service _ hreg) hc
      have hreg2 : (c2.cacheClusterInformation name).isSome
          = !(Event.Update old f o).isDelete := by
        rw [hci, ← hn]
        simp [Event.isDelete]
      obtain ⟨c1, hr, hw1, h1⟩ :=
        ih c2 _ (wf_onUpdate c c2 old f o t2 hw h2) hreg2 hrest hord
      exact ⟨c1, by simpa [run, dispatch, h2] using hr, hw1, h1⟩
    | Delete f =>
      simp only [Event.obj] at hn
      have hreg2 : ((c.onDelete f).1.cacheClusterInformation name).isSome
          = !(Event.Delete f).isDelete := by
        rw [← hn]
        simp [Event.isDelete, onDelete]
      obtain ⟨c1, hr, hw1, h1⟩ := ih (c.onDelete f).1 _ (wf_onDelete c f hw) hreg2 hrest hord
      exact ⟨c1, by simpa [run, dispatch] using hr, hw1, h1⟩

/-- C1 (amended): for every sequence of Add/Update/Delete events on one
cluster name that respects the order of the informer (no Update is first or
follows a Delete directly), handled from the empty registry with any
outcomes of the external calls, no handler panics and `Get name` is absent
exactly when the last event is a Delete. A Delete for a name that is not
registered is covered. -/
theorem registry_presence_follows_last_event (name : String) (evs : List Event) (e : Event)
    (hname : ∀ ev ∈ evs ++ [e], ev.obj.Name = name)
    (hord : informerOrder false (evs ++ [e]) = true) :
    ∃ c, run NewClusterInformationController (evs ++ [e]) = some c ∧
      (c.Get name = none ↔ e.isDelete = true) := by
  obtain ⟨c, hr, -, hc⟩ :=
    run_presence name (evs ++ [e]) NewClusterInformationController false wf_new
      (by simp [NewClusterInformationController]) hname hord
  refine ⟨c, hr, ?_⟩
  simp only [List.foldl_append, List.foldl_cons, List.foldl_nil] at hc
  simp only [ClusterInformationController.Get]
  cases hd : e.isDelete <;> cases hg : c.cacheClusterInformation name <;> simp [hd, hg] at hc ⊢

/-- C1, witness: Add, Update, Delete, Delete, Add on cluster `x`. -/
theorem registry_presence_follows_last_event_witness :
    ∃ c, run NewClusterInformationController
        ([Event.Add clusterX failOutcomes, Event.Update clusterX clusterX2 okOutcomes,
          Event.Delete clusterX, Event.Delete clusterX2] ++ [Event.Add clusterX3 okOutcomes])
          = some c ∧
      (c.Get "x" = none ↔ (Event.Add clusterX3 okOutcomes).isDelete = true) :=
  registry_presence_follows_last_event "x" _ _ (by decide) (by decide)

/-- C1, counterexample: an Update as the first event for `x`. The handler
dereferences the missing entry and panics; `x` is not registered. -/
theorem update_of_unregistered_name_panics :
    run NewClusterInformationController [Event.Update clusterX clusterX okOutcomes] = none ∧
    ¬ ∃ c, run NewClusterInformationController [Event.Update clusterX clusterX okOutcomes]
        = some c ∧ c.Get "x" ≠ none := by
  have h : run NewClusterInformationController [Event.Update clusterX clusterX okOutcomes]
      = none := rfl
  refine ⟨h, ?_⟩
  rintro ⟨c, hc, -⟩
  rw [h] at hc
  cases hc

/-- C2: `proxy` computes the resolver of the specification, on every registry
and every gateway way: an override is returned unchanged with no error
whatever the registry holds; else an unregistered cluster fails, else an
empty gateway address fails, else the result is
`"ssh://" ++ address ++ "?identity_data=" ++ identity`. So cluster `b` with
address `10.0.0.1:443` and identity `abc` gives
`ssh://10.0.0.1:443?identity_data=abc`. -/
theorem proxy_refines_resolveGatewayWay (c : ClusterInformationController)
    (w : ClusterInformationSpecGatewayWay) :
    toExcept (c.proxy w) = resolveGatewayWay c.Get c.GetIdentity w ∧
    (w.Proxy ≠ "" → c.proxy w = (w.Proxy, none)) ∧
    (∀ ci, w = { ClusterName := "b", Proxy := "" } → c.Get "b" = some ci →
      ci.Spec.Gateway.Address = "10.0.0.1:443" → c.GetIdentity "b" = "abc" →
      c.proxy w = ("ssh://10.0.0.1:443?identity_data=abc", none)) := by
  refine ⟨?_, ?_, ?_⟩
  · unfold proxy resolveGatewayWay toExcept
    by_cases hp : w.Proxy = ""
    · cases hg : c.Get w.ClusterName with
      | none => simp [hp]
      | some ci =>
        by_cases ha : ci.Spec.Gateway.Address = ""
        · simp [hp, ha]
        · simp [hp, ha]
    · simp [hp]
  · intro hp
    simp [proxy, hp]
  · intro ci hw hg ha hi
    subst hw
    simp [proxy, hg, ha, hi]

/-- C2, witness: a registry that knows `b`. -/
theorem proxy_refines_resolveGatewayWay_witness :
    registryB.proxy { ClusterName := "b", Proxy := "" }
      = ("ssh://10.0.0.1:443?identity_data=abc", none) ∧
    registryB.proxy { ClusterName := "b", Proxy := "socks5://gw:1080" }
      = ("socks5://gw:1080", none) :=
  ⟨(proxy_refines_resolveGatewayWay registryB { ClusterName := "b", Proxy := "" }).2.2
      _ rfl rfl rfl rfl,
   (proxy_refines_resolveGatewayWay registryB
      { ClusterName := "b", Proxy := "socks5://gw:1080" }).2.1 (by decide)⟩

theorem ProxiesLoop_ok (c : ClusterInformationController)
    (ws : List ClusterInformationSpecGatewayWay) :
    ∀ out, (∀ w ∈ ws, (c.proxy w).2 = none) →
      ProxiesLoop c ws out = (some (out ++ ws.map fun w => (c.proxy w).1), none) := by
  induction ws with
  | nil => intro out _; simp [ProxiesLoop]
  | cons w rest ih =>
    intro out h
    have hw := h w (List.mem_cons_self _ _)
    simp only [ProxiesLoop, hw]
    rw [ih _ fun x hx => h x (List.mem_cons_of_mem _ hx)]
    simp

theorem ProxiesLoop_error (c : ClusterInformationController)
    (pre : List ClusterInformationSpecGatewayWay) (w : ClusterInformationSpecGatewayWay)
    (post : List ClusterInformationSpecGatewayWay) (e : Error) :
    ∀ out, (∀ x ∈ pre, (c.proxy x).2 = none) → (c.proxy w).2 = some e →
      ProxiesLoop c (pre ++ w :: post) out = (none, some e) := by
  induction pre with
  | nil => intro out _ hw; simp [ProxiesLoop, hw]
  | cons x rest ih =>
    intro out h hw
    have hx := h x (List.mem_cons_self _ _)
    simp only [List.cons_append, ProxiesLoop, hx]
    exact ih _ (fun y hy => h y (List.mem_cons_of_mem _ hy)) hw

/-- C3: `Proxies` is fail-fast and keeps the order. If every entry resolves it
returns, with no error, the list of the results of `proxy` in input order
(same length, the i-th element from the i-th entry). If an entry fails it
returns the error of the first failing entry and the nil slice. So over
`[valid, missing]` it returns the missing-cluster error and no list. -/
theorem Proxies_fail_fast (c : ClusterInformationController)
    (ways : List ClusterInformationSpecGatewayWay) :
    ((∀ w ∈ ways, (c.proxy w).2 = none) →
      ∃ out, c.Proxies ways = (some out, none) ∧ out.length = ways.length ∧
        out = ways.map (fun w => (c.proxy w).1) ∧
        ∀ (i : Nat) w, ways[i]? = some w → out[i]? = some (c.proxy w).1) ∧
    (∀ pre w post e, ways = pre ++ w :: post → (∀ x ∈ pre, (c.proxy x).2 = none) →
      (c.proxy w).2 = some e → c.Proxies ways = (none, some e)) ∧
    (∀ valid missing, ways = [valid, missing] → (c.proxy valid).2 = none →
      missing.Proxy = "" → c.Get missing.ClusterName = none →
      c.Proxies ways = (none, some (Error.failedGetClusterInformation missing.ClusterName))) := by
  refine ⟨?_, ?_, ?_⟩
  · intro h
    refine ⟨ways.map (fun w => (c.proxy w).1), ?_, by simp, rfl, ?_⟩
    · simpa [Proxies] using ProxiesLoop_ok c ways [] h
    · intro i w hi
      simp [List.getElem?_map, hi]
  · intro pre w post e hways hpre hw
    subst hways
    exact ProxiesLoop_error c pre w post e [] hpre hw
  · intro valid missing hways hv hp hg
    subst hways
    have hm : (c.proxy missing).2 = some (Error.failedGetClusterInformation missing.ClusterName) := by
      simp [proxy, hp, hg]
    simp [Proxies, ProxiesLoop, hv, hm]

/-- C3, witness: on the registry that knows `x` only, over a valid reference
and over a valid reference followed by a missing one. -/
theorem Proxies_fail_fast_witness :
    (∃ out, registryX.Proxies [{ ClusterName := "x", Proxy := "" }] = (some out, none) ∧
      out.length = 1 ∧
      out = [{ ClusterName := "x", Proxy := "" }].map (fun w => (registryX.proxy w).1) ∧
      ∀ (i : Nat) w, [({ ClusterName := "x", Proxy := "" } : ClusterInformationSpecGatewayWay)][i]?
        = some w → out[i]? = some (registryX.proxy w).1) ∧
    registryX.Proxies [{ ClusterName := "x", Proxy := "" }, { ClusterName := "y", Proxy := "" }]
      = (none, some (Error.failedGetClusterInformation "y")) :=
  ⟨(Proxies_fail_fast registryX [{ ClusterName := "x", Proxy := "" }]).1 (by decide),
   (Proxies_fail_fast registryX
      [{ ClusterName := "x", Proxy := "" }, { ClusterName := "y", Proxy := "" }]).2.2
      _ _ rfl (by decide) rfl (by decide)⟩

theorem sortStrings_sorted (xs : List String) : List.Sorted strLe (sortStrings xs) :=
  List.sorted_insertionSort strLe xs

theorem sortStrings_perm (xs : List String) : List.Perm (sortStrings xs) xs :=
  List.perm_insertionSort strLe xs

theorem sortStrings_eq_of_perm (xs ys : List String) (h : List.Perm xs ys) :
    sortStrings xs = sortStrings ys :=
  List.eq_of_perm_of_sorted
    (((sortStrings_perm xs).trans h).trans (sortStrings_perm ys).symm)
    (sortStrings_sorted xs) (sortStrings_sorted ys)

/-- C4: `updateStatus` on a name that is not registered returns an error and
writes nothing. On a registered name it makes one status write, of the cached
descriptor of that cluster (stored under its own name in every reachable
registry) with `ImportedFrom` and `ExportedTo` the ascending sorts of the
arguments (sorted permutations of them) and `Phase` the argument; calls
whose lists are permutations of each other submit the same object. So
`updateStatus("x", ["b","a"], ["d","c"], "Ready")` submits `["a","b"]` and
`["c","d"]`. -/
theorem updateStatus_writes_sorted_lists (c : ClusterInformationController) (name : String)
    (importedFrom exportedTo : List String) (phase : String) (now : Int)
    (write : Option Error) :
    (c.Get name = none →
      c.updateStatus name importedFrom exportedTo phase now write
        = (some (Error.notFoundClusterInformation name), [])) ∧
    (∀ ci, c.Get name = some ci →
      ∃ sub, c.updateStatus name importedFrom exportedTo phase now write
          = (write, [Effect.UpdateStatus sub]) ∧
        sub.Name = ci.Name ∧ sub.Spec = ci.Spec ∧ (Reachable c → sub.Name = name) ∧
        sub.Status.ImportedFrom = sortStrings importedFrom ∧
        List.Sorted strLe sub.Status.ImportedFrom ∧
        List.Perm sub.Status.ImportedFrom importedFrom ∧
        sub.Status.ExportedTo = sortStrings exportedTo ∧
        List.Sorted strLe sub.Status.ExportedTo ∧
        List.Perm sub.Status.ExportedTo exportedTo ∧
        sub.Status.Phase = phase ∧ sub.Status.LastSynchronizationTimestamp = now) ∧
    (∀ importedFrom2 exportedTo2, List.Perm importedFrom importedFrom2 →
      List.Perm exportedTo exportedTo2 →
      c.updateStatus name importedFrom2 exportedTo2 phase now write
        = c.updateStatus name importedFrom exportedTo phase now write) ∧
    (∀ ci, name = "x" → importedFrom = ["b", "a"] → exportedTo = ["d", "c"] →
      phase = "Ready" → c.Get name = some ci →
      (statusWrites (c.updateStatus name importedFrom exportedTo phase now write).2).map
          (fun s => (s.Status.ImportedFrom, s.Status.ExportedTo, s.Status.Phase))
        = [(["a", "b"], ["c", "d"], "Ready")]) := by
  refine ⟨?_, ?_, ?_, ?_⟩
  · intro h
    simp only [Get] at h
    simp [updateStatus, h]
  · intro ci h
    simp only [Get] at h
    refine ⟨{ ci with Status :=
        { ImportedFrom := sortStrings importedFrom
          ExportedTo := sortStrings exportedTo
          LastSynchronizationTimestamp := now
          Phase := phase } }, by simp only [updateStatus, h], rfl, rfl, ?_, rfl,
      sortStrings_sorted _,
      sortStrings_perm _, rfl, sortStrings_sorted _, sortStrings_perm _, rfl, rfl⟩
    intro hr
    exact (reachable_wf c hr).keyed name ci h
  · intro i2 e2 hi he
    simp only [updateStatus]
    rw [sortStrings_eq_of_perm _ _ hi, sortStrings_eq_of_perm _ _ he]
  · intro ci hn hi he hp h
    subst hn hi he hp
    simp only [Get] at h
    have h1 : sortStrings ["b", "a"] = ["a", "b"] := by decide
    have h2 : sortStrings ["d", "c"] = ["c", "d"] := by decide
    simp [updateStatus, h, statusWrites, h1, h2]

/-- C4, witness: the registry that knows `x`; an unregistered name `y`, the
call of the example, and the same call with the lists permuted. -/
theorem updateStatus_writes_sorted_lists_witness :
    registryX.updateStatus "y" ["b", "a"] ["d", "c"] "Ready" 7 none
      = (some (Error.notFoundClusterInformation "y"), []) ∧
    (statusWrites (registryX.updateStatus "x" ["b", "a"] ["d", "c"] "Ready" 7 none).2).map
        (fun s => (s.Status.ImportedFrom, s.Status.ExportedTo, s.Status.Phase))
      = [(["a", "b"], ["c", "d"], "Ready")] ∧
    registryX.updateStatus "x" ["a", "b"] ["c", "d"] "Ready" 7 none
      = registryX.updateStatus "x" ["b", "a"] ["d", "c"] "Ready" 7 none ∧
    (∃ sub, registryX.updateStatus "x" ["b", "a"] ["d", "c"] "Ready" 7 none
        = (none, [Effect.UpdateStatus sub]) ∧ sub.Name = "x") :=
  ⟨(updateStatus_writes_sorted_lists registryX "y" ["b", "a"] ["d", "c"] "Ready" 7 none).1
      (by decide),
   (updateStatus_writes_sorted_lists registryX "x" ["b", "a"] ["d", "c"] "Ready" 7 none).2.2.2
      clusterX rfl rfl rfl rfl (by decide),
   (updateStatus_writes_sorted_lists registryX "x" ["b", "a"] ["d", "c"] "Ready" 7 none).2.2.1
      ["a", "b"] ["c", "d"] (List.Perm.swap _ _ _) (List.Perm.swap _ _ _),
   let ⟨sub, h1, _, _, h4, _⟩ :=
     (updateStatus_writes_sorted_lists registryX "x" ["b", "a"] ["d", "c"] "Ready" 7 none).2.1
       clusterX (by decide)
   ⟨sub, h1, h4 ⟨[Event.Add clusterX okOutcomes], rfl⟩⟩⟩

theorem resetCalls_append (a b : List Effect) :
    resetCalls (a ++ b) = resetCalls a ++ resetCalls b := by
  induction a with
  | nil => rfl
  | cons e rest ih => cases e <;> simp [resetCalls, ih]

theorem buildCalls_append (a b : List Effect) :
    buildCalls (a ++ b) = buildCalls a ++ buildCalls b := by
  induction a with
  | nil => rfl
  | cons e rest ih => cases e <;> simp [buildCalls, ih]

theorem updateStart_calls (c : ClusterInformationController) (f : ClusterInformation)
    (o : Outcomes) :
    resetCalls (updateStart c f o) = [] ∧ buildCalls (updateStart c f o) = [] ∧
    syncCalls (updateStart c f o) = 0 := by
  unfold updateStart syncCalls
  cases (c.updateIdentityKey f.Name o.secret).2.1 <;>
    simp [resetCalls, buildCalls]

/-- C5 (amended): on a reachable registry, for a registered cluster and an
Update whose `Spec.Kubeconfig` differs bytewise from the cached one, when the
construction of the client succeeds: `onUpdate` builds one client from the
new kubeconfig, stores its handle, which no cluster held before, and the
service cache of the cluster, which stays the same object, receives exactly
one `ResetClientset` call, with that handle, whatever the reset returns. -/
theorem onUpdate_rotates_client (c : ClusterInformationController)
    (old f cached : ClusterInformation) (o : Outcomes) (hr : Reachable c)
    (hreg : c.Get f.Name = some cached)
    (hb : bytesEqual cached.Spec.Kubeconfig f.Spec.Kubeconfig = false)
    (hn : o.newClientset = none) :
    ∃ c1 t p svc, c.onUpdate old f o = some (c1, t) ∧
      c1.Clientset f.Name = some p ∧ c.Clientset f.Name ≠ some p ∧
      (∀ n, c.Clientset n ≠ some p) ∧
      buildCalls t = [f.Spec.Kubeconfig] ∧
      c.ServiceCache f.Name = some svc ∧ c1.ServiceCache f.Name = some svc ∧
      resetCalls t = [(svc, p)] := by
  have hw := reachable_wf c hr
  simp only [Get] at hreg
  obtain ⟨svc, hsvc⟩ := Option.isSome_iff_exists.mp (hw.service f.Name (by simp [hreg]))
  have fr := updateIdentityKey_frame c f.Name o.secret
  have hfresh : ∀ n, c.cacheClientset n ≠ some c.nextPtr := fun n hc =>
    Nat.lt_irrefl _ (hw.fresh n _ hc)
  refine ⟨_, _, c.nextPtr, svc, onUpdate_rebuilds c old f cached svc o hreg hb hn hsvc, ?_,
    hfresh f.Name, hfresh, ?_, hsvc, ?_, ?_⟩
  · simp [Clientset]
  · simp only [buildCalls_append, (updateStart_calls c f o).2.1]
    cases o.reset <;> simp [buildCalls]
  · simp only [ServiceCache]
    rw [fr.2.2.1]
    exact hsvc
  · simp only [resetCalls_append, (updateStart_calls c f o).1]
    cases o.reset <;> simp [resetCalls]

/-- C5, witness: the credentials of `x` are rotated and the client is built. -/
theorem onUpdate_rotates_client_witness :
    ∃ c1 t p svc, registryX.onUpdate clusterX clusterX2 okOutcomes = some (c1, t) ∧
      c1.Clientset clusterX2.Name = some p ∧ registryX.Clientset clusterX2.Name ≠ some p ∧
      (∀ n, registryX.Clientset n ≠ some p) ∧
      buildCalls t = [clusterX2.Spec.Kubeconfig] ∧
      registryX.ServiceCache clusterX2.Name = some svc ∧
      c1.ServiceCache clusterX2.Name = some svc ∧
      resetCalls t = [(svc, p)] :=
  onUpdate_rotates_client registryX clusterX clusterX2 clusterX okOutcomes
    ⟨[Event.Add clusterX okOutcomes], rfl⟩ (by decide) (by decide) rfl

/-- C5, counterexample: the credentials of `x` differ and the construction of
the client fails. The stored handle is the one stored before and the service
cache receives no `ResetClientset` call. -/
theorem rotation_with_failed_build_keeps_client :
    registryX.Get "x" = some clusterX ∧
    bytesEqual clusterX.Spec.Kubeconfig clusterX2.Spec.Kubeconfig = false ∧
    (registryX.onUpdate clusterX clusterX2 failOutcomes).map
        (fun r => (r.1.Clientset "x", resetCalls r.2))
      = some (registryX.Clientset "x", []) := by
  decide

/-- C6: for a registered cluster and an Update whose `Spec.Kubeconfig` equals
the cached one bytewise, whatever else changed in the spec, `onUpdate` leaves
the client handle, the service cache and the tunnel ports of the cluster as
they were, calls neither the client construction nor `ResetClientset`, and
leaves the entry of every other cluster as it was. -/
theorem onUpdate_same_credentials_keeps_resources (c : ClusterInformationController)
    (old f cached : ClusterInformation) (o : Outcomes)
    (hreg : c.Get f.Name = some cached)
    (hb : bytesEqual cached.Spec.Kubeconfig f.Spec.Kubeconfig = true) :
    ∃ c1 t, c.onUpdate old f o = some (c1, t) ∧
      c1.Clientset f.Name = c.Clientset f.Name ∧
      c1.ServiceCache f.Name = c.ServiceCache f.Name ∧
      c1.TunnelPorts f.Name = c.TunnelPorts f.Name ∧
      buildCalls t = [] ∧ resetCalls t = [] ∧
      ∀ n, n ≠ f.Name →
        c1.Get n = c.Get n ∧ c1.Clientset n = c.Clientset n ∧
        c1.ServiceCache n = c.ServiceCache n ∧ c1.TunnelPorts n = c.TunnelPorts n ∧
        c1.GetIdentity n = c.GetIdentity n ∧ c1.cacheIdentity n = c.cacheIdentity n := by
  simp only [Get] at hreg
  have fr := updateIdentityKey_frame c f.Name o.secret
  have pc := updateStart_calls c f o
  have key : ∃ c1 t, c.onUpdate old f o = some (c1, t) ∧
      c1.cacheClientset = c.cacheClientset ∧ c1.cacheService = c.cacheService ∧
      c1.cacheTunnelPorts = c.cacheTunnelPorts ∧
      c1.cacheClusterInformation = Function.update c.cacheClusterInformation f.Name (some f) ∧
      c1.cacheIdentity = (c.updateIdentityKey f.Name o.secret).1.cacheIdentity ∧
      buildCalls t = [] ∧ resetCalls t = [] := by
    by_cases hs : cached.Spec = f.Spec
    · exact ⟨_, _, onUpdate_sameSpec c old f cached o hreg hs, fr.2.1, fr.2.2.1, fr.2.2.2.1,
        rfl, rfl, pc.2.1, pc.1⟩
    · refine ⟨_, _, onUpdate_sameCredentials c old f cached o hreg hs hb, fr.2.1, fr.2.2.1,
        fr.2.2.2.1, rfl, rfl, ?_, ?_⟩
      · simp only [buildCalls_append, pc.2.1]
        simp [buildCalls]
      · simp only [resetCalls_append, pc.1]
        simp [resetCalls]
  obtain ⟨c1, t, h1, hcl, hsv, htp, hci, hid, hbc, hrc⟩ := key
  refine ⟨c1, t, h1, ?_, ?_, ?_, hbc, hrc, ?_⟩
  · simp [Clientset, hcl]
  · simp [ServiceCache, hsv]
  · simp [TunnelPorts, htp]
  · intro n hne
    have hi : c1.cacheIdentity n = c.cacheIdentity n := by
      rw [hid]
      exact fr.2.2.2.2.2.1 n hne
    refine ⟨?_, ?_, ?_, ?_, ?_, hi⟩
    · simp [Get, hci, Function.update_noteq hne]
    · simp [Clientset, hcl]
    · simp [ServiceCache, hsv]
    · simp [TunnelPorts, htp]
    · simp [GetIdentity, hi]

/-- C6, witness: the gateway address of `x` changes, the credentials do not. -/
theorem onUpdate_same_credentials_keeps_resources_witness :
    ∃ c1 t, registryX.onUpdate clusterX clusterX3 okOutcomes = some (c1, t) ∧
      c1.Clientset clusterX3.Name = registryX.Clientset clusterX3.Name ∧
      c1.ServiceCache clusterX3.Name = registryX.ServiceCache clusterX3.Name ∧
      c1.TunnelPorts clusterX3.Name = registryX.TunnelPorts clusterX3.Name ∧
      buildCalls t = [] ∧ resetCalls t = [] ∧
      ∀ n, n ≠ clusterX3.Name →
        c1.Get n = registryX.Get n ∧ c1.Clientset n = registryX.Clientset n ∧
        c1.ServiceCache n = registryX.ServiceCache n ∧
        c1.TunnelPorts n = registryX.TunnelPorts n ∧
        c1.GetIdentity n = registryX.GetIdentity n ∧
        c1.cacheIdentity n = registryX.cacheIdentity n :=
  onUpdate_same_credentials_keeps_resources registryX clusterX clusterX3 clusterX okOutcomes
    (by decide) (by decide)

theorem onAdd_syncCalls (c : ClusterInformationController) (f : ClusterInformation)
    (o : Outcomes) : syncCalls (c.onAdd f o).2 = 1 := by
  simp only [onAdd, syncCalls, updateStatus, Function.update_same]
  rw [(updateIdentityKey_frame _ _ _).2.2.2.2.2.2]
  cases o.newClientset <;> cases o.start <;> cases o.statusWrite <;>
    cases (updateIdentityKey _ f.Name o.secret).2.1 <;>
    simp [List.count_cons]

theorem onDelete_syncCalls (c : ClusterInformationController) (f : ClusterInformation) :
    syncCalls (c.onDelete f).2 = 1 := by
  simp only [onDelete, syncCalls]
  cases c.cacheService f.Name <;> simp [List.count_cons]

theorem syncCalls_append (a b : List Effect) :
    syncCalls (a ++ b) = syncCalls a + syncCalls b := by
  simp [syncCalls]

/-- C9: `syncFunc` fires exactly on a reconciliation that changes the
topology. `onAdd` and `onDelete` call it exactly once, for every input and
every outcome of their steps. `onUpdate` on a registered cluster of a
reachable registry calls it exactly once when the new spec is not deep-equal
to the cached one, also when the kubeconfigs are equal and nothing is
rebuilt. When the spec is deep-equal it calls it zero times, and the registry
changes only in the cached descriptor, replaced by the new one, and in the
identity token of the cluster. -/
theorem syncFunc_fires_on_topology_change (c : ClusterInformationController)
    (old f : ClusterInformation) (o : Outcomes) :
    syncCalls (c.onAdd f o).2 = 1 ∧
    syncCalls (c.onDelete f).2 = 1 ∧
    (∀ cached, Reachable c → c.Get f.Name = some cached → cached.Spec ≠ f.Spec →
      ∃ c1 t, c.onUpdate old f o = some (c1, t) ∧ syncCalls t = 1 ∧
        (bytesEqual cached.Spec.Kubeconfig f.Spec.Kubeconfig = true →
          buildCalls t = [] ∧ resetCalls t = [] ∧ c1.cacheClientset = c.cacheClientset ∧
          c1.cacheService = c.cacheService ∧ c1.cacheTunnelPorts = c.cacheTunnelPorts)) ∧
    (∀ cached, c.Get f.Name = some cached → cached.Spec = f.Spec →
      ∃ c1 t, c.onUpdate old f o = some (c1, t) ∧ syncCalls t = 0 ∧
        c1.cacheClusterInformation
          = Function.update c.cacheClusterInformation f.Name (some f) ∧
        c1.cacheClientset = c.cacheClientset ∧ c1.cacheService = c.cacheService ∧
        c1.cacheTunnelPorts = c.cacheTunnelPorts ∧
        ∀ n, n ≠ f.Name → c1.cacheIdentity n = c.cacheIdentity n) := by
  have fr := updateIdentityKey_frame c f.Name o.secret
  have pc := updateStart_calls c f o
  refine ⟨onAdd_syncCalls c f o, onDelete_syncCalls c f, ?_, ?_⟩
  · intro cached hr hreg hs
    have hw := reachable_wf c hr
    simp only [Get] at hreg
    cases hb : bytesEqual cached.Spec.Kubeconfig f.Spec.Kubeconfig
    · cases hn : o.newClientset
      · obtain ⟨svc, hsvc⟩ :=
          Option.isSome_iff_exists.mp (hw.service f.Name (by simp [hreg]))
        refine ⟨_, _, onUpdate_rebuilds c old f cached svc o hreg hb hn hsvc, ?_, ?_⟩
        · simp only [syncCalls_append, pc.2.2]
          cases o.reset <;> simp [syncCalls, List.count_cons]
        · intro h
          cases h
      · refine ⟨_, _, onUpdate_buildFails c old f cached o hreg hb (by simp [hn]), ?_, ?_⟩
        · simp only [syncCalls_append, pc.2.2]
          simp [syncCalls, List.count_cons]
        · intro h
          cases h
    · refine ⟨_, _, onUpdate_sameCredentials c old f cached o hreg hs hb, ?_, ?_⟩
      · simp only [syncCalls_append, pc.2.2]
        simp [syncCalls, List.count_cons]
      · intro _
        refine ⟨?_, ?_, fr.2.1, fr.2.2.1, fr.2.2.2.1⟩
        · simp only [buildCalls_append, pc.2.1]
          simp [buildCalls]
        · simp only [resetCalls_append, pc.1]
          simp [resetCalls]
  · intro cached hreg hs
    simp only [Get] at hreg
    exact ⟨_, _, onUpdate_sameSpec c old f cached o hreg hs, pc.2.2, rfl, fr.2.1, fr.2.2.1,
      fr.2.2.2.1, fr.2.2.2.2.2.1⟩

/-- C9, witness: on the registry that knows `x`, an Update that changes the
gateway address only, and an Update with the cached descriptor. -/
theorem syncFunc_fires_on_topology_change_witness :
    (∃ c1 t, registryX.onUpdate clusterX clusterX3 failOutcomes = some (c1, t) ∧
      syncCalls t = 1 ∧
      (bytesEqual clusterX.Spec.Kubeconfig clusterX3.Spec.Kubeconfig = true →
        buildCalls t = [] ∧ resetCalls t = [] ∧
        c1.cacheClientset = registryX.cacheClientset ∧
        c1.cacheService = registryX.cacheService ∧
        c1.cacheTunnelPorts = registryX.cacheTunnelPorts)) ∧
    (∃ c1 t, registryX.onUpdate clusterX clusterX failOutcomes = some (c1, t) ∧
      syncCalls t = 0 ∧
      c1.cacheClusterInformation
        = Function.update registryX.cacheClusterInformation clusterX.Name (some clusterX) ∧
      c1.cacheClientset = registryX.cacheClientset ∧
      c1.cacheService = registryX.cacheService ∧
      c1.cacheTunnelPorts = registryX.cacheTunnelPorts ∧
      ∀ n, n ≠ clusterX.Name → c1.cacheIdentity n = registryX.cacheIdentity n) :=
  ⟨(syncFunc_fires_on_topology_change registryX clusterX clusterX3 failOutcomes).2.2.1
      clusterX ⟨[Event.Add clusterX okOutcomes], rfl⟩ (by decide) (by decide),
   (syncFunc_fires_on_topology_change registryX clusterX clusterX failOutcomes).2.2.2
      clusterX (by decide) rfl⟩

theorem withoutIdentity_append (a b : List Effect) :
    withoutIdentity (a ++ b) = withoutIdentity a ++ withoutIdentity b := by
  simp [withoutIdentity]

theorem withoutIdentity_updateStart (c : ClusterInformationController)
    (f : ClusterInformation) (o : Outcomes) :
    withoutIdentity (updateStart c f o) = [Effect.logInfo "onUpdate"] := by
  unfold updateStart withoutIdentity
  cases (c.updateIdentityKey f.Name o.secret).2.1 <;> simp [List.filter]

theorem updateIdentityKey_fresh (c : ClusterInformationController) (n : String)
    (secret : Secret) (data : String → Option (List Byte)) (b : List Byte)
    (hd : secret.Data = some data) (hi : data "identity" = some b) (hb : b ≠ []) :
    (c.updateIdentityKey n (Except.ok secret)).1.cacheIdentity n
      = some (EncodeToString b) := by
  have hl : ¬ b.length = 0 := fun h => hb (List.length_eq_zero.mp h)
  simp [updateIdentityKey, hd, hi, hl]

theorem updateIdentityKey_stale (c : ClusterInformationController) (n : String)
    (g : Except Error Secret)
    (h : (∃ err, g = Except.error err) ∨
      ∃ secret, g = Except.ok secret ∧
        (secret.Data = none ∨
          ∃ data, secret.Data = some data ∧
            (data "identity" = none ∨ data "identity" = some []))) :
    (c.updateIdentityKey n g).1 = c := by
  rcases h with ⟨err, rfl⟩ | ⟨secret, rfl, hd | ⟨data, hd, hi | hi⟩⟩
  · simp [updateIdentityKey]
  · simp [updateIdentityKey, hd]
  · simp [updateIdentityKey, hd, hi]
  · simp [updateIdentityKey, hd, hi]

theorem onUpdate_secret_independent (c : ClusterInformationController)
    (old f cached : ClusterInformation) (o : Outcomes) (g : Except Error Secret)
    (hsvc : (c.cacheService f.Name).isSome)
    (hreg : c.cacheClusterInformation f.Name = some cached) :
    ∃ c1 t c2 t2, c.onUpdate old f o = some (c1, t) ∧
      c.onUpdate old f { o with secret := g } = some (c2, t2) ∧
      c1.cacheIdentity = (c.updateIdentityKey f.Name o.secret).1.cacheIdentity ∧
      c2.cacheClusterInformation = c1.cacheClusterInformation ∧
      c2.cacheClientset = c1.cacheClientset ∧ c2.cacheService = c1.cacheService ∧
      c2.cacheTunnelPorts = c1.cacheTunnelPorts ∧
      withoutIdentity t2 = withoutIdentity t := by
  have fr := updateIdentityKey_frame c f.Name o.secret
  have fr2 := updateIdentityKey_frame c f.Name g
  by_cases hs : cached.Spec = f.Spec
  · refine ⟨_, _, _, _, onUpdate_sameSpec c old f cached o hreg hs,
      onUpdate_sameSpec c old f cached { o with secret := g } hreg hs, rfl, rfl, ?_, ?_, ?_, ?_⟩
    · exact fr2.2.1.trans fr.2.1.symm
    · exact fr2.2.2.1.trans fr.2.2.1.symm
    · exact fr2.2.2.2.1.trans fr.2.2.2.1.symm
    · rw [withoutIdentity_updateStart, withoutIdentity_updateStart]
  · cases hb : bytesEqual cached.Spec.Kubeconfig f.Spec.Kubeconfig
    · rcases Option.eq_none_or_eq_some o.newClientset with hn | ⟨err, hn⟩
      · obtain ⟨svc, hsvc⟩ := Option.isSome_iff_exists.mp hsvc
        refine ⟨_, _, _, _, onUpdate_rebuilds c old f cached svc o hreg hb hn hsvc,
          onUpdate_rebuilds c old f cached svc { o with secret := g } hreg hb hn hsvc,
          rfl, rfl, rfl, ?_, ?_, ?_⟩
        · exact fr2.2.2.1.trans fr.2.2.1.symm
        · exact fr2.2.2.2.1.trans fr.2.2.2.1.symm
        · simp only [withoutIdentity_append, withoutIdentity_updateStart]
      · refine ⟨_, _, _, _,
          onUpdate_buildFails c old f cached o hreg hb (by simp [hn]),
          onUpdate_buildFails c old f cached { o with secret := g } hreg hb (by simp [hn]),
          rfl, rfl, ?_, ?_, ?_, ?_⟩
        · exact fr2.2.1.trans fr.2.1.symm
        · exact fr2.2.2.1.trans fr.2.2.1.symm
        · exact fr2.2.2.2.1.trans fr.2.2.2.1.symm
        · simp only [withoutIdentity_append, withoutIdentity_updateStart]
    · refine ⟨_, _, _, _, onUpdate_sameCredentials c old f cached o hreg hs hb,
        onUpdate_sameCredentials c old f cached { o with secret := g } hreg hs hb,
        rfl, rfl, ?_, ?_, ?_, ?_⟩
      · exact fr2.2.1.trans fr.2.1.symm
      · exact fr2.2.2.1.trans fr.2.2.1.symm
      · exact fr2.2.2.2.1.trans fr.2.2.2.1.symm
      · simp only [withoutIdentity_append, withoutIdentity_updateStart]

/-- C10: for every Update on a registered cluster of a reachable registry,
whether or not the spec changed, `onUpdate` returns and: if the secret lookup
succeeds and its `identity` field holds non-empty bytes `b`, then
`GetIdentity` of the cluster is afterwards the URL-safe base64 encoding of
`b`; if the lookup fails, the secret has no data, or the field is missing or
empty, `GetIdentity` is what it was before. The rest of the update does not
depend on the secret: with any other answer `g` of the lookup the four other
caches and the calls made, the lookup and the log line of its failure apart,
are the same. -/
theorem onUpdate_rederives_identity (c : ClusterInformationController)
    (old f cached : ClusterInformation) (o : Outcomes) (hr : Reachable c)
    (hreg : c.Get f.Name = some cached) :
    ∃ c1 t, c.onUpdate old f o = some (c1, t) ∧
      (∀ secret data b, o.secret = Except.ok secret → secret.Data = some data →
        data "identity" = some b → b ≠ [] → c1.GetIdentity f.Name = EncodeToString b) ∧
      ((∃ err, o.secret = Except.error err) ∨
        (∃ secret, o.secret = Except.ok secret ∧
          (secret.Data = none ∨
            ∃ data, secret.Data = some data ∧
              (data "identity" = none ∨ data "identity" = some []))) →
        c1.GetIdentity f.Name = c.GetIdentity f.Name) ∧
      (∀ g, ∃ c2 t2, c.onUpdate old f { o with secret := g } = some (c2, t2) ∧
        c2.cacheClusterInformation = c1.cacheClusterInformation ∧
        c2.cacheClientset = c1.cacheClientset ∧ c2.cacheService = c1.cacheService ∧
        c2.cacheTunnelPorts = c1.cacheTunnelPorts ∧
        withoutIdentity t2 = withoutIdentity t) := by
  have hw := reachable_wf c hr
  simp only [Get] at hreg
  have hsvc := hw.service f.Name (by simp [hreg])
  obtain ⟨c1, t, -, -, h1, -, hid, -⟩ :=
    onUpdate_secret_independent c old f cached o o.secret hsvc hreg
  refine ⟨c1, t, h1, ?_, ?_, ?_⟩
  · intro secret data b hs hd hi hb
    simp only [GetIdentity, hid, hs, updateIdentityKey_fresh c f.Name secret data b hd hi hb]
    rfl
  · intro h
    simp only [GetIdentity, hid, updateIdentityKey_stale c f.Name o.secret h]
  · intro g
    obtain ⟨c1b, tb, c2, t2, h1b, h2, -, hci, hcl, hsv, htp, ht⟩ :=
      onUpdate_secret_independent c old f cached o g hsvc hreg
    rw [h1] at h1b
    cases h1b
    exact ⟨c2, t2, h2, hci, hcl, hsv, htp, ht⟩

/-- C10, witness: the secret of `x` was rotated to the bytes `abc`. -/
theorem onUpdate_rederives_identity_witness :
    ∃ c1 t, registryX.onUpdate clusterX clusterX rotatedOutcomes = some (c1, t) ∧
      c1.GetIdentity "x" = "YWJj" ∧ registryX.GetIdentity "x" = "aGk=" :=
  let ⟨c1, t, h1, h2, _⟩ :=
    onUpdate_rederives_identity registryX clusterX clusterX clusterX rotatedOutcomes
      ⟨[Event.Add clusterX okOutcomes], rfl⟩ (by decide)
  ⟨c1, t, h1, (h2 _ _ [97, 98, 99] rfl rfl (by decide) (by decide)).trans (by decide),
    by decide⟩

namespace health

theorem rounds_checkHub (hub : Hub) (o : HubOutcome) : rounds (checkHub hub o) = 0 := by
  unfold checkHub rounds
  cases o.probe <;> cases o.write <;> simp [List.count_cons]

theorem rounds_check (hubs : List Hub) : ∀ o, rounds (check hubs o) = 0 := by
  induction hubs with
  | nil => intro o; rfl
  | cons hub rest ih =>
    intro o
    have h1 := rounds_checkHub hub (o 0)
    have h2 := ih (fun i => o (i + 1))
    simp only [rounds] at h1 h2 ⊢
    simp [check, List.count_append, h1, h2]

theorem Since_of_small (now t : Int) (h1 : 0 ≤ now - t) (h2 : now - t ≤ Second) :
    Since now t = now - t := by
  unfold Since
  unfold Second at h2
  rw [if_neg (by omega), if_neg (by omega)]

theorem Since_of_large (now t : Int) (h : Second < now - t) : Second < Since now t := by
  unfold Since
  unfold Second at h ⊢
  split
  · decide
  · rw [if_neg (by omega)]
    exact h

/-- C7 (amended): with the clock an explicit input, `Sync` is debounced at one
second, the bound included. A call made when at most one second has elapsed
since `latestUpdate` is a no-op: no call is made and `latestUpdate` is kept. A
call made when more than one second has elapsed lists the hubs, makes one
`check` round over them and records the completion time; so does the first
call, `latestUpdate` being the zero time. Hence after a round that completed
at `done`, a call at most one second later makes no round, and a call more
than one second later makes exactly one. -/
theorem Sync_debounced (m : HealthController) (now : Int) (hubs : List Hub)
    (o : Nat → HubOutcome) (done : Int) :
    (Since now m.latestUpdate ≤ Second → Sync m now hubs o done = (m, [])) ∧
    (Second < Since now m.latestUpdate →
      Sync m now hubs o done = ({ latestUpdate := done }, HealthEffect.ListHubs :: check hubs o) ∧
      rounds (Sync m now hubs o done).2 = 1) ∧
    (Second < now →
      rounds (Sync NewHealthController now hubs o done).2 = 1 ∧
      (Sync NewHealthController now hubs o done).1.latestUpdate = done) ∧
    (Second < Since now m.latestUpdate →
      ∀ (now2 : Int) (hubs2 : List Hub) (o2 : Nat → HubOutcome) (done2 : Int),
        (done ≤ now2 → now2 - done ≤ Second →
          Sync (Sync m now hubs o done).1 now2 hubs2 o2 done2
            = ((Sync m now hubs o done).1, []) ∧
          rounds ((Sync m now hubs o done).2
            ++ (Sync (Sync m now hubs o done).1 now2 hubs2 o2 done2).2) = 1) ∧
        (Second < now2 - done →
          rounds (Sync (Sync m now hubs o done).1 now2 hubs2 o2 done2).2 = 1 ∧
          rounds ((Sync m now hubs o done).2
            ++ (Sync (Sync m now hubs o done).1 now2 hubs2 o2 done2).2) = 2)) := by
  have hround : ∀ (m1 : HealthController) (n1 : Int) (hs : List Hub) (o1 : Nat → HubOutcome)
      (d1 : Int), Second < Since n1 m1.latestUpdate →
      Sync m1 n1 hs o1 d1 = ({ latestUpdate := d1 }, HealthEffect.ListHubs :: check hs o1) ∧
      rounds (Sync m1 n1 hs o1 d1).2 = 1 := by
    intro m1 n1 hs o1 d1 h
    have hsync : Sync m1 n1 hs o1 d1
        = ({ latestUpdate := d1 }, HealthEffect.ListHubs :: check hs o1) := by
      simp only [Sync, if_neg (not_le.mpr h)]
    refine ⟨hsync, ?_⟩
    rw [hsync]
    have hc := rounds_check hs o1
    simp only [rounds] at hc ⊢
    simp [hc]
  have hskip : ∀ (m1 : HealthController) (n1 : Int) (hs : List Hub) (o1 : Nat → HubOutcome)
      (d1 : Int), Since n1 m1.latestUpdate ≤ Second → Sync m1 n1 hs o1 d1 = (m1, []) := by
    intro m1 n1 hs o1 d1 h
    simp only [Sync, if_pos h]
  refine ⟨hskip m now hubs o done, hround m now hubs o done, ?_, ?_⟩
  · intro h
    have h2 := hround NewHealthController now hubs o done
      (Since_of_large now 0 (by simpa using h))
    exact ⟨h2.2, by rw [h2.1]⟩
  · intro h now2 hubs2 o2 done2
    obtain ⟨h1, hr1⟩ := hround m now hubs o done h
    have hl : (Sync m now hubs o done).1.latestUpdate = done := by rw [h1]
    refine ⟨?_, ?_⟩
    · intro ha hb
      have hsk := hskip (Sync m now hubs o done).1 now2 hubs2 o2 done2
        (by rw [hl, Since_of_small now2 done (by omega) hb]; exact hb)
      refine ⟨hsk, ?_⟩
      rw [hsk]
      simpa using hr1
    · intro ha
      have h2 := hround (Sync m now hubs o done).1 now2 hubs2 o2 done2
        (by rw [hl]; exact Since_of_large now2 done ha)
      refine ⟨h2.2, ?_⟩
      have e1 := hr1
      have e2 := h2.2
      simp only [rounds] at e1 e2 ⊢
      rw [List.count_append, e1, e2]

/-- C7, witness: a call exactly one second after the last check; a call a
nanosecond later; the first call ever; and, after a round, a call one second
and a call more than one second after its completion. -/
theorem Sync_debounced_witness :
    Sync { latestUpdate := 5 } (5 + Second) hubs12 outcomes12 9 = ({ latestUpdate := 5 }, []) ∧
    rounds (Sync { latestUpdate := 5 } (6 + Second) hubs12 outcomes12 (7 + Second)).2 = 1 ∧
    rounds (Sync NewHealthController (6 + Second) hubs12 outcomes12 (7 + Second)).2 = 1 ∧
    rounds ((Sync { latestUpdate := 5 } (6 + Second) hubs12 outcomes12 (7 + Second)).2
      ++ (Sync (Sync { latestUpdate := 5 } (6 + Second) hubs12 outcomes12 (7 + Second)).1
            (7 + Second + Second) hubs12 outcomes12 (8 + Second + Second)).2) = 1 ∧
    rounds ((Sync { latestUpdate := 5 } (6 + Second) hubs12 outcomes12 (7 + Second)).2
      ++ (Sync (Sync { latestUpdate := 5 } (6 + Second) hubs12 outcomes12 (7 + Second)).1
            (8 + Second + Second) hubs12 outcomes12 (9 + Second + Second)).2) = 2 :=
  ⟨(Sync_debounced { latestUpdate := 5 } (5 + Second) hubs12 outcomes12 9).1 (by decide),
   ((Sync_debounced { latestUpdate := 5 } (6 + Second) hubs12 outcomes12 (7 + Second)).2.1
      (by decide)).2,
   ((Sync_debounced NewHealthController (6 + Second) hubs12 outcomes12 (7 + Second)).2.2.1
      (by decide)).1,
   (((Sync_debounced { latestUpdate := 5 } (6 + Second) hubs12 outcomes12 (7 + Second)).2.2.2
      (by decide) (7 + Second + Second) hubs12 outcomes12 (8 + Second + Second)).1
      (by decide) (by decide)).2,
   (((Sync_debounced { latestUpdate := 5 } (6 + Second) hubs12 outcomes12 (7 + Second)).2.2.2
      (by decide) (8 + Second + Second) hubs12 outcomes12 (9 + Second + Second)).2
      (by decide)).2⟩

/-- C7, counterexample: a call made when exactly one second has elapsed since
the last check. It makes no round and keeps `latestUpdate`. -/
theorem Sync_after_exactly_one_second_is_noop :
    Since (5 + Second) 5 = Second ∧
    (Sync { latestUpdate := 5 } (5 + Second) hubs12 outcomes12 9).2 = [] ∧
    rounds (Sync { latestUpdate := 5 } (5 + Second) hubs12 outcomes12 9).2 = 0 ∧
    (Sync { latestUpdate := 5 } (5 + Second) hubs12 outcomes12 9).1.latestUpdate = 5 := by
  decide

theorem resolved_append (a b : List HealthEffect) :
    resolved (a ++ b) = resolved a ++ resolved b := by
  induction a with
  | nil => rfl
  | cons e rest ih => cases e <;> simp [resolved, ih]

theorem probes_append (a b : List HealthEffect) :
    probes (a ++ b) = probes a ++ probes b := by
  induction a with
  | nil => rfl
  | cons e rest ih => cases e <;> simp [probes, ih]

theorem conditionWrites_append (a b : List HealthEffect) :
    conditionWrites (a ++ b) = conditionWrites a ++ conditionWrites b := by
  induction a with
  | nil => rfl
  | cons e rest ih => cases e <;> simp [conditionWrites, ih]

theorem checkHub_calls (hub : Hub) (o : HubOutcome) :
    resolved (checkHub hub o) = [hub.Name] ∧
    probes (checkHub hub o) = ["http://" ++ o.host] ∧
    ∃ cond, conditionWrites (checkHub hub o) = [(hub.Name, [cond])] ∧
      conditionMatches o.probe cond := by
  unfold checkHub
  cases hp : o.probe <;> cases hw : o.write <;>
    simp [resolved, probes, conditionWrites, conditionMatches]

theorem check_calls (hubs : List Hub) :
    ∀ o : Nat → HubOutcome,
      resolved (check hubs o) = hubs.map Hub.Name ∧
      (probes (check hubs o)).length = hubs.length ∧
      (conditionWrites (check hubs o)).length = hubs.length ∧
      ∀ (i : Nat) hub, hubs[i]? = some hub →
        (probes (check hubs o))[i]? = some ("http://" ++ (o i).host) ∧
        ∃ cond, (conditionWrites (check hubs o))[i]? = some (hub.Name, [cond]) ∧
          conditionMatches (o i).probe cond := by
  induction hubs with
  | nil =>
    intro o
    simp [check, resolved, probes, conditionWrites]
  | cons h rest ih =>
    intro o
    obtain ⟨r1, p1, c0, w1, m1⟩ := checkHub_calls h (o 0)
    obtain ⟨r2, p2, w2, i2⟩ := ih (fun i => o (i + 1))
    simp only [check, resolved_append, probes_append, conditionWrites_append, r1, p1, w1, r2]
    refine ⟨by simp, by simp [p2], by simp [w2], ?_⟩
    intro i hub hi
    cases i with
    | zero =>
      simp only [List.getElem?_cons_zero, Option.some.injEq] at hi
      subst hi
      exact ⟨by simp, c0, by simp, m1⟩
    | succ j =>
      simp only [List.getElem?_cons_succ] at hi
      obtain ⟨hp, cond, hc, hm⟩ := i2 j hub hi
      exact ⟨by simpa using hp, cond, by simpa using hc, hm⟩

/-- C8 (amended): for every list of hubs and every outcome of the probes and
of the condition writes, one `check` round resolves and probes every hub
exactly once, in list order, and makes exactly one `UpdateHubConditions` call
per hub, for the name of that hub, whatever failed on earlier hubs. The
condition written has type `TunnelHealthCondition`; after a failed probe its
reason is `Unhealth` and its message the error text of the probe, after a
successful probe its reason is `Health`, its message empty and its status
true. So when the probe of `h1` fails, `h2` is still probed and receives a
`Health` condition. `check` returns nothing, so no error reaches the caller. -/
theorem check_probes_every_hub (hubs : List Hub) (o : Nat → HubOutcome) :
    resolved (check hubs o) = hubs.map Hub.Name ∧
    (probes (check hubs o)).length = hubs.length ∧
    (conditionWrites (check hubs o)).length = hubs.length ∧
    (∀ (i : Nat) hub, hubs[i]? = some hub →
      (probes (check hubs o))[i]? = some ("http://" ++ (o i).host) ∧
      ∃ cond, (conditionWrites (check hubs o))[i]? = some (hub.Name, [cond]) ∧
        cond.Type_ = ConditionType.TunnelHealthCondition ∧
        (∀ err, (o i).probe = some err → cond.Reason = "Unhealth" ∧ cond.Message = err) ∧
        ((o i).probe = none →
          cond.Reason = "Health" ∧ cond.Message = "" ∧
          cond.Status = ConditionStatus.ConditionTrue)) ∧
    (∀ h1 h2 err, hubs = [h1, h2] → (o 0).probe = some err → (o 1).probe = none →
      probes (check hubs o) = ["http://" ++ (o 0).host, "http://" ++ (o 1).host] ∧
      ∃ cond1, conditionWrites (check hubs o)
          = [(h1.Name, [cond1]),
             (h2.Name, [{ Type_ := ConditionType.TunnelHealthCondition
                          Status := ConditionStatus.ConditionTrue
                          Reason := "Health"
                          Message := "" }])] ∧
        cond1.Reason = "Unhealth" ∧ cond1.Message = err) := by
  obtain ⟨hr, hp, hw, hi⟩ := check_calls hubs o
  refine ⟨hr, hp, hw, ?_, ?_⟩
  · intro i hub hh
    obtain ⟨h1, cond, hc, ht, hm⟩ := hi i hub hh
    refine ⟨h1, cond, hc, ht, ?_, ?_⟩
    · intro err he
      rw [he] at hm
      exact hm
    · intro he
      rw [he] at hm
      exact hm
  · intro h1 h2 err hh he1 he2
    subst hh
    simp only [check, checkHub, he1, he2]
    cases (o 0).write <;> cases (o 1).write <;>
      simp [probes, conditionWrites]

/-- C8, witness: the probe of `h1` fails and the write of its condition fails
too; `h2` is probed and receives a `Health` condition. -/
theorem check_probes_every_hub_witness :
    (probes (check hubs12 outcomes12) = ["http://10.0.0.1:8080", "http://10.0.0.2:8080"] ∧
      ∃ cond1, conditionWrites (check hubs12 outcomes12)
          = [("h1", [cond1]),
             ("h2", [{ Type_ := ConditionType.TunnelHealthCondition
                       Status := ConditionStatus.ConditionTrue
                       Reason := "Health"
                       Message := "" }])] ∧
        cond1.Reason = "Unhealth" ∧ cond1.Message = "connection refused") ∧
    (probes (check hubs12 outcomes12))[1]? = some ("http://" ++ (outcomes12 1).host) :=
  ⟨(check_probes_every_hub hubs12 outcomes12).2.2.2.2
      { Name := "h1" } { Name := "h2" } "connection refused" rfl rfl rfl,
   ((check_probes_every_hub hubs12 outcomes12).2.2.2.1 1 { Name := "h2" } rfl).1⟩

/-- C8, counterexample: the probe of `h1` fails. The condition written for
`h1` has reason `Unhealth`, not `Unhealthy`, and the same status as the
condition written for the healthy `h2`, so the status does not tell an
unhealthy hub from a healthy one. -/
theorem unhealthy_condition_has_healthy_status :
    conditionWrites (check hubs12 outcomes12)
      = [("h1", [{ Type_ := ConditionType.TunnelHealthCondition
                   Status := ConditionStatus.ConditionTrue
                   Reason := "Unhealth"
                   Message := "connection refused" }]),
         ("h2", [{ Type_ := ConditionType.TunnelHealthCondition
                   Status := ConditionStatus.ConditionTrue
                   Reason := "Health"
                   Message := "" }])] ∧
    ¬ ∃ cond, ("h1", [cond]) ∈ conditionWrites (check hubs12 outcomes12) ∧
        (cond.Reason = "Unhealthy" ∨ cond.Status ≠ ConditionStatus.ConditionTrue) := by
  have h : conditionWrites (check hubs12 outcomes12)
      = [("h1", [{ Type_ := ConditionType.TunnelHealthCondition
                   Status := ConditionStatus.ConditionTrue
                   Reason := "Unhealth"
                   Message := "connection refused" }]),
         ("h2", [{ Type_ := ConditionType.TunnelHealthCondition
                   Status := ConditionStatus.ConditionTrue
                   Reason := "Health"
                   Message := "" }])] := by decide
  refine ⟨h, ?_⟩
  rintro ⟨cond, hm, hc⟩
  rw [h] at hm
  simp only [List.mem_cons, Prod.mk.injEq, List.cons.injEq, and_true, List.mem_singleton,
    List.not_mem_nil, or_false] at hm
  rcases hm with ⟨-, hm⟩ | ⟨h12, -⟩
  · subst hm
    rcases hc with hc | hc
    · revert hc
      decide
    · exact hc rfl
  · revert h12
    decide

end health

end Ferry
